import Mathlib

set_option maxRecDepth 4000

/-!
Verification of the provider status-table builder
(`src/commands/status-all/providers.ts`).

The development shallowly embeds the TypeScript source: JavaScript strings
become Lean `String`s (character based), JavaScript numbers used here are
naturals, `undefined`/`null` become `Option`, and the external collaborators
(account resolvers, filesystem probe, environment, session probe) become
explicit inputs gathered in an `Externals` record.  `node:crypto`'s SHA-256
is implemented in full so that the secret-hint formatter is executable.
-/

/-! ### JavaScript-flavoured helpers -/

/-- `s.trim()`: drop leading and trailing whitespace, spelled out on the
character list so that the result is provably a part of the input. -/
def jsTrim (s : String) : String :=
  ⟨((s.data.dropWhile Char.isWhitespace).reverse.dropWhile Char.isWhitespace).reverse⟩

/-- `o?.trim() || ""`: trim an optional string, defaulting to the empty
string when it is absent. -/
def optTrim (o : Option String) : String :=
  (o.map jsTrim).getD ""

/-- `parts.join(sep)` on a JavaScript array of strings. -/
def joinSep (sep : String) : List String → String
  | [] => ""
  | [x] => x
  | x :: y :: xs => x ++ sep ++ joinSep sep (y :: xs)

/-- `x?.enabled !== false`: a provider is enabled unless the flag is
literally `false`. -/
def jsEnabled (o : Option Bool) : Bool :=
  match o with
  | some false => false
  | _ => true

/-- `n || 1` on a count: JavaScript replaces the falsy `0` by `1`. -/
def jsOr1 (n : Nat) : Nat :=
  if n = 0 then 1 else n

/-- `s.slice(0, n)` on a JavaScript string, character based. -/
def strTake (s : String) (n : Nat) : String :=
  ⟨s.data.take n⟩

/-- `s.slice(-n)` on a JavaScript string: the last `n` characters (the whole
string when it is shorter). -/
def strTakeEnd (s : String) (n : Nat) : String :=
  ⟨s.data.drop (s.data.length - n)⟩

/-- Decimal digit characters. -/
def decDigits : List Char :=
  "0123456789".data

/-- The decimal digit for `n < 10`. -/
def digitChar10 (n : Nat) : Char :=
  List.getD decDigits n '0'

/-- Fuel-driven decimal rendering of a natural number (the fuel is always
sufficient because `n / 10 < n`). -/
def natDecAux : Nat → Nat → List Char
  | 0, _ => []
  | fuel + 1, n =>
    if n < 10 then [digitChar10 n]
    else natDecAux fuel (n / 10) ++ [digitChar10 (n % 10)]

/-- Decimal rendering of a natural number, as produced by JavaScript string
interpolation of a non-negative integer. -/
def natDec (n : Nat) : String :=
  ⟨natDecAux (n + 1) n⟩

/-! ### SHA-256 (`node:crypto`, `createHash("sha256")`) -/

/-- 32-bit truncation. -/
def w32 (n : Nat) : Nat := n % 4294967296

/-- Right rotation of a 32-bit word. -/
def rotr32 (k x : Nat) : Nat :=
  w32 ((x >>> k) ||| (x <<< (32 - k)))

/-- Bitwise complement of a 32-bit word. -/
def not32 (x : Nat) : Nat := 4294967295 ^^^ x

def shaCh (x y z : Nat) : Nat := (x &&& y) ^^^ (not32 x &&& z)

def shaMaj (x y z : Nat) : Nat := (x &&& y) ^^^ (x &&& z) ^^^ (y &&& z)

def bigSigma0 (x : Nat) : Nat := rotr32 2 x ^^^ rotr32 13 x ^^^ rotr32 22 x

def bigSigma1 (x : Nat) : Nat := rotr32 6 x ^^^ rotr32 11 x ^^^ rotr32 25 x

def smallSigma0 (x : Nat) : Nat := rotr32 7 x ^^^ rotr32 18 x ^^^ (x >>> 3)

def smallSigma1 (x : Nat) : Nat := rotr32 17 x ^^^ rotr32 19 x ^^^ (x >>> 10)

/-- SHA-256 round constants. -/
def shaK : List Nat :=
  [1116352408, 1899447441, 3049323471, 3921009573,
   961987163, 1508970993, 2453635748, 2870763221,
   3624381080, 310598401, 607225278, 1426881987,
   1925078388, 2162078206, 2614888103, 3248222580,
   3835390401, 4022224774, 264347078, 604807628,
   770255983, 1249150122, 1555081692, 1996064986,
   2554220882, 2821834349, 2952996808, 3210313671,
   3336571891, 3584528711, 113926993, 338241895,
   666307205, 773529912, 1294757372, 1396182291,
   1695183700, 1986661051, 2177026350, 2456956037,
   2730485921, 2820302411, 3259730800, 3345764771,
   3516065817, 3600352804, 4094571909, 275423344,
   430227734, 506948616, 659060556, 883997877,
   958139571, 1322822218, 1537002063, 1747873779,
   1955562222, 2024104815, 2227730452, 2361852424,
   2428436474, 2756734187, 3204031479, 3329325298]

/-- SHA-256 initial hash state. -/
def shaH0 : List Nat :=
  [1779033703, 3144134277, 1013904242, 2773480762,
   1359893119, 2600822924, 528734635, 1541459225]

/-- UTF-8 encoding of a single character (`crypto.update` hashes the UTF-8
bytes of the string). -/
def utf8EncodeChar (c : Char) : List Nat :=
  let n := c.toNat
  if n < 128 then [n]
  else if n < 2048 then [192 + n / 64, 128 + n % 64]
  else if n < 65536 then [224 + n / 4096, 128 + n / 64 % 64, 128 + n % 64]
  else [240 + n / 262144, 128 + n / 4096 % 64, 128 + n / 64 % 64, 128 + n % 64]

/-- UTF-8 bytes of a string. -/
def utf8Bytes (s : String) : List Nat :=
  s.data.flatMap utf8EncodeChar

/-- Big-endian byte rendering of `n` over `count` bytes. -/
def toBytesBE (n count : Nat) : List Nat :=
  (List.range count).map (fun i => n / 256 ^ (count - 1 - i) % 256)

/-- SHA-256 message padding: `0x80`, zeros, then the 64-bit big-endian bit
length, reaching a multiple of 64 bytes. -/
def padMessage (msg : List Nat) : List Nat :=
  let z := (119 - msg.length % 64) % 64
  msg ++ [128] ++ List.replicate z 0 ++ toBytesBE (msg.length * 8) 8

/-- Group bytes into big-endian 32-bit words. -/
def bytesToWords : List Nat → List Nat
  | b0 :: b1 :: b2 :: b3 :: rest =>
    (b0 * 16777216 + b1 * 65536 + b2 * 256 + b3) :: bytesToWords rest
  | _ => []

/-- Fuel-driven split into 64-byte blocks (the fuel is always sufficient). -/
def chunks64Aux : Nat → List Nat → List (List Nat)
  | 0, _ => []
  | _ + 1, [] => []
  | fuel + 1, l => l.take 64 :: chunks64Aux fuel (l.drop 64)

/-- Extend a 16-word block to the 64-word message schedule. -/
def buildSchedule (w0 : List Nat) : List Nat :=
  (List.range 48).foldl
    (fun w i =>
      let j := i + 16
      w ++ [w32 (smallSigma1 (w.getD (j - 2) 0) + w.getD (j - 7) 0 +
                 smallSigma0 (w.getD (j - 15) 0) + w.getD (j - 16) 0)])
    w0

/-- One SHA-256 round on the working state `[a,b,c,d,e,f,g,h]`. -/
def compressStep (st : List Nat) (kw : Nat × Nat) : List Nat :=
  match st with
  | [a, b, c, d, e, f, g, h] =>
    let t1 := w32 (h + bigSigma1 e + shaCh e f g + kw.1 + kw.2)
    let t2 := w32 (bigSigma0 a + shaMaj a b c)
    [w32 (t1 + t2), a, b, c, w32 (d + t1), e, f, g]
  | other => other

/-- Process one 64-byte block. -/
def compressBlock (hst : List Nat) (block : List Nat) : List Nat :=
  let w := buildSchedule (bytesToWords block)
  let final := (shaK.zip w).foldl compressStep hst
  (hst.zip final).map (fun p => w32 (p.1 + p.2))

/-- SHA-256 state after hashing a byte list. -/
def sha256Words (msg : List Nat) : List Nat :=
  let padded := padMessage msg
  (chunks64Aux padded.length padded).foldl compressBlock shaH0

/-- Lowercase hexadecimal digits. -/
def hexDigits : List Char :=
  decDigits ++ "abcdef".data

/-- The hexadecimal digit for `n < 16`. -/
def hexDigitChar (n : Nat) : Char :=
  List.getD hexDigits n '0'

/-- Eight hex digits of a 32-bit word, most significant first. -/
def wordToHex (w : Nat) : List Char :=
  (List.range 8).map (fun i => hexDigitChar (w / 16 ^ (7 - i) % 16))

/-- Full lowercase hex SHA-256 digest of a string (`digest("hex")`). -/
def sha256Hex (s : String) : String :=
  ⟨(sha256Words (utf8Bytes s)).flatMap wordToHex⟩

/-- `sha256HexPrefix` from the source: the first `len` hex characters of the
SHA-256 digest (the source defaults `len` to 8).  Renamed to keep to plain
suffix-free identifiers. -/
def sha256HexHead (value : String) (len : Nat) : String :=
  strTake (sha256Hex value) len

/-! ### `formatTokenHint` -/

/-- `formatTokenHint` from the source: render a credential either as an
irreversible fingerprint or as a partially revealed hint. -/
def formatTokenHint (token : String) (showSecrets : Bool) : String :=
  let t := jsTrim token
  if t = "" then "empty"
  else if !showSecrets then
    "sha256:" ++ sha256HexHead t 8 ++ " · len " ++ natDec t.length
  else
    let head := strTake t 4
    let tail := strTakeEnd t 4
    if t.length ≤ 10 then t ++ " · len " ++ natDec t.length
    else head ++ "…" ++ tail ++ " · len " ++ natDec t.length

/-! ### `summarizeSources` -/

/-- The result shape of the source summarizer. -/
structure SourceSummary where
  label : String
  parts : List String
  deriving DecidableEq

/-- Insertion-ordered occurrence counting, modelling the JavaScript `Map`:
an existing key is bumped in place, a new key is appended. -/
def bumpCount (key : String) : List (String × Nat) → List (String × Nat)
  | [] => [(key, 1)]
  | (k, n) :: rest =>
    if k = key then (k, n + 1) :: rest else (k, n) :: bumpCount key rest

/-- Stable insertion (before the first strictly smaller count, after equal
counts already present), modelling the stable `sort((a, b) => b[1] - a[1])`. -/
def insertCountDesc (x : String × Nat) : List (String × Nat) → List (String × Nat)
  | [] => [x]
  | y :: ys => if y.2 ≤ x.2 then x :: y :: ys else y :: insertCountDesc x ys

/-- Stable descending-by-count sort of the count list. -/
def sortCountDesc (l : List (String × Nat)) : List (String × Nat) :=
  l.foldr insertCountDesc []

/-- The normalized key of one source tag: its trim when non-blank,
`"unknown"` otherwise. -/
def sourceKey (s : Option String) : String :=
  let t := optTrim s
  if t ≠ "" then t else "unknown"

/-- `summarizeSources` from the source: aggregate optional source tags into
a compact label.  A blank or absent tag counts as `"unknown"`; parts are the
distinct keys rendered `key` or `key×n`, count-descending with first-seen
tie-break; the label joins them with `+`, or is `"unknown"` when empty. -/
def summarizeSources (sources : List (Option String)) : SourceSummary :=
  let counts := sources.foldl (fun acc s => bumpCount (sourceKey s) acc) []
  let parts := (sortCountDesc counts).map
    (fun kn => kn.1 ++ (if kn.2 > 1 then "×" ++ natDec kn.2 else ""))
  let label := if parts.length > 0 then joinSep "+" parts else "unknown"
  { label := label, parts := parts }

/-! ### `existsSyncMaybe` -/

/-- `existsSyncMaybe` from the source.  The filesystem is an explicit input
`fs : String → Option Bool`; `fs p = none` models `fs.existsSync` throwing
(which the source catches, returning `null`). -/
def existsSyncMaybe (fs : String → Option Bool) (p : Option String) : Option Bool :=
  let path := optTrim p
  if path = "" then none else fs path

/-! ### Data model

Accounts are the result shapes of the external `resolveXAccount`
collaborators; the configuration mirrors the fields of `ClawdbotConfig`
that the table builder reads, with `Option` for fields that may be absent.
-/

inductive ProviderState where
  | ok
  | setup
  | warn
  | off
  deriving DecidableEq

structure ProviderRow where
  provider : String
  enabled : Bool
  state : ProviderState
  detail : String
  deriving DecidableEq

structure DetailTable where
  title : String
  columns : List String
  rows : List (List (String × String))
  deriving DecidableEq

structure WhatsAppAccount where
  accountId : String
  name : Option String
  enabled : Bool
  selfChatMode : Bool
  dmPolicy : Option String
  allowFrom : Option (List String)
  deriving DecidableEq

structure TelegramAccount where
  enabled : Bool
  token : Option String
  tokenSource : Option String
  deriving DecidableEq

structure DiscordAccount where
  enabled : Bool
  token : Option String
  tokenSource : Option String
  deriving DecidableEq

structure SlackAccount where
  enabled : Bool
  botToken : Option String
  appToken : Option String
  botTokenSource : Option String
  appTokenSource : Option String
  deriving DecidableEq

structure SignalAccount where
  enabled : Bool
  configured : Bool
  baseUrl : Option String
  deriving DecidableEq

structure IMessageAccountSettings where
  cliPath : Option String
  dbPath : Option String
  deriving DecidableEq

structure IMessageAccount where
  enabled : Bool
  configured : Bool
  config : Option IMessageAccountSettings
  deriving DecidableEq

structure WebConfig where
  enabled : Option Bool
  deriving DecidableEq

structure WhatsAppConfig where
  allowFrom : Option (List String)
  dmPolicy : Option String
  deriving DecidableEq

structure TelegramAccountConfig where
  tokenFile : Option String
  deriving DecidableEq

structure TelegramConfig where
  enabled : Option Bool
  tokenFile : Option String
  accounts : Option (List (String × TelegramAccountConfig))
  deriving DecidableEq

structure SimpleProviderConfig where
  enabled : Option Bool
  deriving DecidableEq

structure MSTeamsConfig where
  enabled : Option Bool
  appId : Option String
  appPassword : Option String
  tenantId : Option String
  deriving DecidableEq

structure ClawdbotConfig where
  web : Option WebConfig
  whatsapp : Option WhatsAppConfig
  telegram : Option TelegramConfig
  discord : Option SimpleProviderConfig
  slack : Option SimpleProviderConfig
  signal : Option SimpleProviderConfig
  imessage : Option SimpleProviderConfig
  msteams : Option MSTeamsConfig
  deriving DecidableEq

/-- The external collaborators of the table builder, consumed through their
result shapes: the web session probe (`webAuthExists`, caught to `false` on
failure, hence `Option Bool`), the session age and self id, the per-provider
account resolvers (already applied to every listed account id; Telegram
keeps its account ids, which the source re-reads for token-file checks), the
filesystem existence probe, the process environment, and the two external
string formatters. -/
structure Externals where
  webAuthOk : Option Bool
  webAuthAgeMs : Option Int
  webSelfE164 : Option String
  whatsappAccounts : List WhatsAppAccount
  whatsappDefaultAccount : WhatsAppAccount
  telegramAccounts : List (String × TelegramAccount)
  discordAccounts : List DiscordAccount
  slackAccounts : List SlackAccount
  signalAccounts : List SignalAccount
  imessageAccounts : List IMessageAccount
  fs : String → Option Bool
  env : String → Option String
  normalizeE164 : String → String
  formatAge : Int → String

/-! ### WhatsApp classifier -/

def waEnabled (cfg : ClawdbotConfig) : Bool :=
  jsEnabled (cfg.web.bind (·.enabled))

def waLinked (cfg : ClawdbotConfig) (ext : Externals) : Bool :=
  waEnabled cfg && ext.webAuthOk.getD false

def waAuthAgeMs (cfg : ClawdbotConfig) (ext : Externals) : Option Int :=
  if waLinked cfg ext then ext.webAuthAgeMs else none

def waSelf (cfg : ClawdbotConfig) (ext : Externals) : Option String :=
  if waLinked cfg ext then ext.webSelfE164 else none

def waAccounts (cfg : ClawdbotConfig) (ext : Externals) : List WhatsAppAccount :=
  if waLinked cfg ext then ext.whatsappAccounts else []

/-- `${waSelf ? ` ${waSelf}` : ""}`. -/
def waSelfPart (cfg : ClawdbotConfig) (ext : Externals) : String :=
  match waSelf cfg ext with
  | some s => if s ≠ "" then " " ++ s else ""
  | none => ""

/-- `${waAuthAgeMs ? ` · auth ${formatAge(waAuthAgeMs)}` : ""}`. -/
def waAgePart (cfg : ClawdbotConfig) (ext : Externals) : String :=
  match waAuthAgeMs cfg ext with
  | some n => if n ≠ 0 then " · auth " ++ ext.formatAge n else ""
  | none => ""

def whatsAppRow (cfg : ClawdbotConfig) (ext : Externals) : ProviderRow :=
  { provider := "WhatsApp"
    enabled := waEnabled cfg
    state :=
      if !waEnabled cfg then .off
      else if waLinked cfg ext then .ok
      else .setup
    detail :=
      if waEnabled cfg then
        if waLinked cfg ext then
          "linked" ++ waSelfPart cfg ext ++ waAgePart cfg ext
          ++ " · accounts " ++ natDec (jsOr1 (waAccounts cfg ext).length)
        else "not linked (run clawdbot login)"
      else "disabled" }

/-- The account rows of the WhatsApp detail table. -/
def waDetailRow (cfg : ClawdbotConfig) (ext : Externals)
    (account : WhatsAppAccount) : List (String × String) :=
  let allowFrom :=
    (((account.allowFrom.orElse (fun _ => cfg.whatsapp.bind (·.allowFrom))).getD []).map
        ext.normalizeE164
      |>.filter (· != "")).take 3
  let dmPolicy := (account.dmPolicy.orElse (fun _ => cfg.whatsapp.bind (·.dmPolicy))).getD "pairing"
  let notes :=
    (if !account.enabled then ["disabled"] else [])
    ++ (if account.selfChatMode then ["self-chat"] else [])
    ++ ["dm:" ++ dmPolicy]
    ++ (if allowFrom.length > 0 then ["allow:" ++ String.intercalate "," allowFrom] else [])
  let nm := optTrim account.name
  [("Account", if nm ≠ "" then account.accountId ++ " (" ++ nm ++ ")" else account.accountId),
   ("Status", if account.enabled then "OK" else "OFF"),
   ("Notes", String.intercalate " · " notes)]

def waDetailTable (cfg : ClawdbotConfig) (ext : Externals) : DetailTable :=
  let waRows :=
    if (waAccounts cfg ext).length > 0 then waAccounts cfg ext
    else [ext.whatsappDefaultAccount]
  { title := "WhatsApp accounts"
    columns := ["Account", "Status", "Notes"]
    rows := waRows.map (waDetailRow cfg ext) }

/-! ### Telegram classifier -/

def tgEnabled (cfg : ClawdbotConfig) : Bool :=
  jsEnabled (cfg.telegram.bind (·.enabled))

def tgAccounts (ext : Externals) : List TelegramAccount :=
  ext.telegramAccounts.map Prod.snd

def tgEnabledAccounts (ext : Externals) : List TelegramAccount :=
  (tgAccounts ext).filter (·.enabled)

def tgTokenAccounts (ext : Externals) : List TelegramAccount :=
  (tgEnabledAccounts ext).filter (fun a => optTrim a.token != "")

def tgSources (ext : Externals) : SourceSummary :=
  summarizeSources ((tgTokenAccounts ext).map (·.tokenSource))

def tgSampleToken (ext : Externals) : String :=
  optTrim ((tgTokenAccounts ext).head?.bind (·.token))

def tgTokenHint (ext : Externals) (showSecrets : Bool) : String :=
  if tgSampleToken ext ≠ "" then formatTokenHint (tgSampleToken ext) showSecrets else ""

/-- `cfg.telegram?.accounts?.[accountId]?.tokenFile?.trim() || ""`. -/
def tgCfgAccountTokenFile (cfg : ClawdbotConfig) (accountId : String) : String :=
  optTrim (((cfg.telegram.bind (·.accounts)).bind (List.lookup accountId)).bind (·.tokenFile))

def tgGlobalTokenFileOk (cfg : ClawdbotConfig) (ext : Externals) : Option Bool :=
  existsSyncMaybe ext.fs (cfg.telegram.bind (·.tokenFile))

/-- The missing-token-file keys, global one first, then one per listed
account id whose configured token file fails the existence probe.  Note the
per-account check is gated only on the provider-level `tgEnabled`. -/
def tgMissingFiles (cfg : ClawdbotConfig) (ext : Externals) : List String :=
  (if tgEnabled cfg ∧ optTrim (cfg.telegram.bind (·.tokenFile)) ≠ ""
      ∧ tgGlobalTokenFileOk cfg ext = some false
   then ["telegram.tokenFile"] else [])
  ++ ext.telegramAccounts.filterMap (fun ida =>
      if tgEnabled cfg ∧ tgCfgAccountTokenFile cfg ida.1 ≠ ""
          ∧ existsSyncMaybe ext.fs (some (tgCfgAccountTokenFile cfg ida.1)) = some false
      then some ("telegram.accounts." ++ ida.1 ++ ".tokenFile") else none)

def tgMisconfigured (cfg : ClawdbotConfig) (ext : Externals) : Bool :=
  (tgMissingFiles cfg ext).length > 0

/-- `${tgTokenHint ? ` (${tgTokenHint})` : ""}`. -/
def tgHintPart (ext : Externals) (showSecrets : Bool) : String :=
  if tgTokenHint ext showSecrets ≠ ""
  then " (" ++ tgTokenHint ext showSecrets ++ ")" else ""

def telegramRow (cfg : ClawdbotConfig) (ext : Externals) (showSecrets : Bool) : ProviderRow :=
  { provider := "Telegram"
    enabled := tgEnabled cfg
    state :=
      if !tgEnabled cfg then .off
      else if tgMisconfigured cfg ext then .warn
      else if (tgTokenAccounts ext).length > 0 then .ok
      else .setup
    detail :=
      if tgEnabled cfg then
        if tgMisconfigured cfg ext then
          "token file missing (" ++ (tgMissingFiles cfg ext).headD "" ++ ")"
        else if (tgTokenAccounts ext).length > 0 then
          "bot token " ++ (tgSources ext).label ++ tgHintPart ext showSecrets
          ++ " · accounts " ++ natDec (tgTokenAccounts ext).length
          ++ "/" ++ natDec (jsOr1 (tgEnabledAccounts ext).length)
        else "no bot token (TELEGRAM_BOT_TOKEN / telegram.botToken)"
      else "disabled" }

/-! ### Discord classifier -/

def dcEnabled (cfg : ClawdbotConfig) : Bool :=
  jsEnabled (cfg.discord.bind (·.enabled))

def dcEnabledAccounts (ext : Externals) : List DiscordAccount :=
  ext.discordAccounts.filter (·.enabled)

def dcTokenAccounts (ext : Externals) : List DiscordAccount :=
  (dcEnabledAccounts ext).filter (fun a => optTrim a.token != "")

def dcSources (ext : Externals) : SourceSummary :=
  summarizeSources ((dcTokenAccounts ext).map (·.tokenSource))

def dcSampleToken (ext : Externals) : String :=
  optTrim ((dcTokenAccounts ext).head?.bind (·.token))

def dcTokenHint (ext : Externals) (showSecrets : Bool) : String :=
  if dcSampleToken ext ≠ "" then formatTokenHint (dcSampleToken ext) showSecrets else ""

/-- `${dcTokenHint ? ` (${dcTokenHint})` : ""}`. -/
def dcHintPart (ext : Externals) (showSecrets : Bool) : String :=
  if dcTokenHint ext showSecrets ≠ ""
  then " (" ++ dcTokenHint ext showSecrets ++ ")" else ""

def discordRow (cfg : ClawdbotConfig) (ext : Externals) (showSecrets : Bool) : ProviderRow :=
  { provider := "Discord"
    enabled := dcEnabled cfg
    state :=
      if !dcEnabled cfg then .off
      else if (dcTokenAccounts ext).length > 0 then .ok
      else .setup
    detail :=
      if dcEnabled cfg then
        if (dcTokenAccounts ext).length > 0 then
          "bot token " ++ (dcSources ext).label ++ dcHintPart ext showSecrets
          ++ " · accounts " ++ natDec (dcTokenAccounts ext).length
          ++ "/" ++ natDec (jsOr1 (dcEnabledAccounts ext).length)
        else "no bot token (DISCORD_BOT_TOKEN / discord.token)"
      else "disabled" }

/-! ### Slack classifier -/

def slEnabled (cfg : ClawdbotConfig) : Bool :=
  jsEnabled (cfg.slack.bind (·.enabled))

def slEnabledAccounts (ext : Externals) : List SlackAccount :=
  ext.slackAccounts.filter (·.enabled)

def slackReady (ext : Externals) : List SlackAccount :=
  (slEnabledAccounts ext).filter
    (fun a => optTrim a.botToken != "" && optTrim a.appToken != "")

def slackPartialTokens (ext : Externals) : List SlackAccount :=
  (slEnabledAccounts ext).filter
    (fun a =>
      (optTrim a.botToken != "" && optTrim a.appToken == "")
      || (optTrim a.botToken == "" && optTrim a.appToken != ""))

def slackHasAnyToken (ext : Externals) : Bool :=
  (slEnabledAccounts ext).any
    (fun a => optTrim a.botToken != "" || optTrim a.appToken != "")

def slackBotSources (ext : Externals) : SourceSummary :=
  summarizeSources ((slackReady ext).map (fun a => some (a.botTokenSource.getD "none")))

def slackAppSources (ext : Externals) : SourceSummary :=
  summarizeSources ((slackReady ext).map (fun a => some (a.appTokenSource.getD "none")))

def slackSample (ext : Externals) : Option SlackAccount :=
  (slackReady ext).head?

def slackBotHint (ext : Externals) (showSecrets : Bool) : String :=
  match slackSample ext with
  | some a =>
    if optTrim a.botToken != "" && a.botTokenSource != some "none"
    then formatTokenHint (a.botToken.getD "") showSecrets else ""
  | none => ""

def slackAppHint (ext : Externals) (showSecrets : Bool) : String :=
  match slackSample ext with
  | some a =>
    if optTrim a.appToken != "" && a.appTokenSource != some "none"
    then formatTokenHint (a.appToken.getD "") showSecrets else ""
  | none => ""

/-- `${slBotHint ? ` ${slBotHint}` : ""}`. -/
def slackBotHintPart (ext : Externals) (showSecrets : Bool) : String :=
  if slackBotHint ext showSecrets ≠ ""
  then " " ++ slackBotHint ext showSecrets else ""

/-- `${slAppHint ? ` ${slAppHint}` : ""}`. -/
def slackAppHintPart (ext : Externals) (showSecrets : Bool) : String :=
  if slackAppHint ext showSecrets ≠ ""
  then " " ++ slackAppHint ext showSecrets else ""

def slackRow (cfg : ClawdbotConfig) (ext : Externals) (showSecrets : Bool) : ProviderRow :=
  { provider := "Slack"
    enabled := slEnabled cfg
    state :=
      if !slEnabled cfg then .off
      else if (slackPartialTokens ext).length > 0 then .warn
      else if (slackReady ext).length > 0 then .ok
      else .setup
    detail :=
      if slEnabled cfg then
        if (slackPartialTokens ext).length > 0 then
          "partial tokens (need bot+app) · accounts "
          ++ natDec (slackPartialTokens ext).length
        else if (slackReady ext).length > 0 then
          "tokens ok (bot " ++ (slackBotSources ext).label
          ++ slackBotHintPart ext showSecrets
          ++ ", app " ++ (slackAppSources ext).label
          ++ slackAppHintPart ext showSecrets
          ++ ") · accounts " ++ natDec (slackReady ext).length
          ++ "/" ++ natDec (jsOr1 (slEnabledAccounts ext).length)
        else if slackHasAnyToken ext then "tokens incomplete (need bot+app)"
        else "no tokens (SLACK_BOT_TOKEN + SLACK_APP_TOKEN)"
      else "disabled" }

/-! ### Signal classifier -/

def siEnabled (cfg : ClawdbotConfig) : Bool :=
  jsEnabled (cfg.signal.bind (·.enabled))

def siEnabledAccounts (ext : Externals) : List SignalAccount :=
  ext.signalAccounts.filter (·.enabled)

def siConfiguredAccounts (ext : Externals) : List SignalAccount :=
  (siEnabledAccounts ext).filter (·.configured)

def siSample (ext : Externals) : Option SignalAccount :=
  match (siConfiguredAccounts ext).head? with
  | some a => some a
  | none => (siEnabledAccounts ext).head?

def siBaseUrl (ext : Externals) : String :=
  optTrim ((siSample ext).bind (·.baseUrl))

/-- `${siBaseUrl ? ` · baseUrl ${siBaseUrl}` : ""}`. -/
def siBaseUrlPart (ext : Externals) : String :=
  if siBaseUrl ext ≠ "" then " · baseUrl " ++ siBaseUrl ext else ""

def signalRow (cfg : ClawdbotConfig) (ext : Externals) : ProviderRow :=
  { provider := "Signal"
    enabled := siEnabled cfg
    state :=
      if !siEnabled cfg then .off
      else if (siConfiguredAccounts ext).length > 0 then .ok
      else .setup
    detail :=
      if siEnabled cfg then
        if (siConfiguredAccounts ext).length > 0 then
          "configured" ++ siBaseUrlPart ext
          ++ " · accounts " ++ natDec (siConfiguredAccounts ext).length
          ++ "/" ++ natDec (jsOr1 (siEnabledAccounts ext).length)
        else "default config (no overrides)"
      else "disabled" }

/-! ### iMessage classifier -/

def imEnabled (cfg : ClawdbotConfig) : Bool :=
  jsEnabled (cfg.imessage.bind (·.enabled))

def imEnabledAccounts (ext : Externals) : List IMessageAccount :=
  ext.imessageAccounts.filter (·.enabled)

def imConfiguredAccounts (ext : Externals) : List IMessageAccount :=
  (imEnabledAccounts ext).filter (·.configured)

def imSample (ext : Externals) : Option IMessageAccount :=
  (imEnabledAccounts ext).head?

def imCliPath (ext : Externals) : String :=
  optTrim (((imSample ext).bind (·.config)).bind (·.cliPath))

def imDbPath (ext : Externals) : String :=
  optTrim (((imSample ext).bind (·.config)).bind (·.dbPath))

/-- `${imCliPath ? ` · cliPath ${imCliPath}` : ""}`. -/
def imCliPathPart (ext : Externals) : String :=
  if imCliPath ext ≠ "" then " · cliPath " ++ imCliPath ext else ""

/-- `${imDbPath ? ` · dbPath ${imDbPath}` : ""}`. -/
def imDbPathPart (ext : Externals) : String :=
  if imDbPath ext ≠ "" then " · dbPath " ++ imDbPath ext else ""

def imessageRow (cfg : ClawdbotConfig) (ext : Externals) : ProviderRow :=
  { provider := "iMessage"
    enabled := imEnabled cfg
    state :=
      if !imEnabled cfg then .off
      else if (imConfiguredAccounts ext).length > 0 then .ok
      else .setup
    detail :=
      if imEnabled cfg then
        if (imConfiguredAccounts ext).length > 0 then
          "configured" ++ imCliPathPart ext ++ imDbPathPart ext
          ++ " · accounts " ++ natDec (imConfiguredAccounts ext).length
          ++ "/" ++ natDec (jsOr1 (imEnabledAccounts ext).length)
        else "default config (no overrides)"
      else "disabled" }

/-! ### MS Teams classifier -/

def msEnabled (cfg : ClawdbotConfig) : Bool :=
  jsEnabled (cfg.msteams.bind (·.enabled))

/-- `cfg.msteams?.appId?.trim() || process.env.MSTEAMS_APP_ID?.trim()`,
collapsed to the empty string when both sides are blank or absent. -/
def msAppId (cfg : ClawdbotConfig) (ext : Externals) : String :=
  let c := optTrim (cfg.msteams.bind (·.appId))
  if c ≠ "" then c else optTrim (ext.env "MSTEAMS_APP_ID")

def msAppPassword (cfg : ClawdbotConfig) (ext : Externals) : String :=
  let c := optTrim (cfg.msteams.bind (·.appPassword))
  if c ≠ "" then c else optTrim (ext.env "MSTEAMS_APP_PASSWORD")

def msTenantId (cfg : ClawdbotConfig) (ext : Externals) : String :=
  let c := optTrim (cfg.msteams.bind (·.tenantId))
  if c ≠ "" then c else optTrim (ext.env "MSTEAMS_TENANT_ID")

/-- Modelled from the spec: `resolveMSTeamsCredentials` (from
`src/msteams/token.js`, which is not part of the sources) returns a truthy
credentials record exactly when app id, app password and tenant id are all
present, consulting the configuration first and the environment variables
`MSTEAMS_APP_ID`, `MSTEAMS_APP_PASSWORD`, `MSTEAMS_TENANT_ID` as fallback. -/
def msCreds (cfg : ClawdbotConfig) (ext : Externals) : Bool :=
  msAppId cfg ext != "" && msAppPassword cfg ext != "" && msTenantId cfg ext != ""

def msMissing (cfg : ClawdbotConfig) (ext : Externals) : List String :=
  (if msAppId cfg ext = "" then ["appId"] else [])
  ++ (if msAppPassword cfg ext = "" then ["appPassword"] else [])
  ++ (if msTenantId cfg ext = "" then ["tenantId"] else [])

def msAnyPresent (cfg : ClawdbotConfig) (ext : Externals) : Bool :=
  msAppId cfg ext != "" || msAppPassword cfg ext != "" || msTenantId cfg ext != ""

def msPasswordHint (cfg : ClawdbotConfig) (ext : Externals) (showSecrets : Bool) : String :=
  if msAppPassword cfg ext ≠ ""
  then formatTokenHint (msAppPassword cfg ext) showSecrets else ""

/-- `${msPasswordHint ? ` (password ${msPasswordHint})` : ""}`. -/
def msPasswordPart (cfg : ClawdbotConfig) (ext : Externals) (showSecrets : Bool) : String :=
  if msPasswordHint cfg ext showSecrets ≠ ""
  then " (password " ++ msPasswordHint cfg ext showSecrets ++ ")" else ""

def msteamsRow (cfg : ClawdbotConfig) (ext : Externals) (showSecrets : Bool) : ProviderRow :=
  { provider := "MS Teams"
    enabled := msEnabled cfg
    state :=
      if !msEnabled cfg then .off
      else if msCreds cfg ext then .ok
      else if msAnyPresent cfg ext then .warn
      else .setup
    detail :=
      if msEnabled cfg then
        if msCreds cfg ext then
          "credentials set" ++ msPasswordPart cfg ext showSecrets
        else if msAnyPresent cfg ext then
          "credentials incomplete (missing "
          ++ joinSep ", " (msMissing cfg ext) ++ ")"
        else "no credentials (MSTEAMS_APP_ID / _PASSWORD / _TENANT_ID)"
      else "disabled" }

/-! ### Report builder -/

structure ProvidersTable where
  rows : List ProviderRow
  details : List DetailTable

/-- `buildProvidersTable` from the source: the seven classifier rows in
fixed order, plus the WhatsApp detail table when the session is linked.
`opts` models the optional `{showSecrets?: boolean}` argument; the flag is
on only when it is literally `true`. -/
def buildProvidersTable (cfg : ClawdbotConfig) (ext : Externals)
    (opts : Option Bool) : ProvidersTable :=
  let showSecrets := opts.getD false
  { rows :=
      [whatsAppRow cfg ext,
       telegramRow cfg ext showSecrets,
       discordRow cfg ext showSecrets,
       slackRow cfg ext showSecrets,
       signalRow cfg ext,
       imessageRow cfg ext,
       msteamsRow cfg ext showSecrets]
    details := if waLinked cfg ext then [waDetailTable cfg ext] else [] }

/-! ### Baseline inputs

A configuration with every provider section absent and externals with no
accounts, an unlinked session, an empty environment and a filesystem probe
that always fails.  Witness configurations below override single fields. -/

def emptyCfg : ClawdbotConfig :=
  { web := none, whatsapp := none, telegram := none, discord := none,
    slack := none, signal := none, imessage := none, msteams := none }

def defaultWaAccount : WhatsAppAccount :=
  { accountId := "default", name := none, enabled := true,
    selfChatMode := false, dmPolicy := none, allowFrom := none }

def emptyExt : Externals :=
  { webAuthOk := some false, webAuthAgeMs := none, webSelfE164 := none,
    whatsappAccounts := [], whatsappDefaultAccount := defaultWaAccount,
    telegramAccounts := [], discordAccounts := [], slackAccounts := [],
    signalAccounts := [], imessageAccounts := [],
    fs := fun _ => none, env := fun _ => none,
    normalizeE164 := fun s => s, formatAge := fun _ => "" }

/-! ### Basic string and digit lemmas -/

@[simp]
theorem strData_append (s t : String) : (s ++ t).data = s.data ++ t.data := rfl

@[simp]
theorem strData_mk (l : List Char) : (String.mk l).data = l := rfl

theorem str_eq_iff_data (s t : String) : s = t ↔ s.data = t.data :=
  ⟨fun h => h ▸ rfl, fun h => by
    cases s; cases t
    simp only [strData_mk] at h
    rw [h]⟩

theorem str_ne_empty_of_data_ne_nil {s : String} (h : s.data ≠ []) : s ≠ "" := by
  intro e
  exact h (by simpa [str_eq_iff_data] using e)

theorem getD_mem {l : List Char} {d : Char} (h : d ∈ l) (n : Nat) :
    List.getD l n d ∈ l := by
  rw [List.getD_eq_getElem?_getD]
  cases hg : l[n]? with
  | none => simpa [hg]
  | some a =>
    have := List.getElem?_mem hg
    simpa [hg]

theorem natDecAux_ne_nil (fuel n : Nat) : natDecAux (fuel + 1) n ≠ [] := by
  rw [natDecAux]
  split
  · simp
  · simp

theorem natDecAux_mem_digits :
    ∀ fuel n c, c ∈ natDecAux fuel n → c ∈ decDigits := by
  intro fuel
  induction fuel with
  | zero => intro n c h; simp [natDecAux] at h
  | succ fuel ih =>
    intro n c h
    rw [natDecAux] at h
    split at h
    · simp at h
      exact h ▸ getD_mem (by decide) n
    · rcases List.mem_append.1 h with h1 | h2
      · exact ih _ _ h1
      · simp at h2
        exact h2 ▸ getD_mem (by decide) (n % 10)

theorem natDec_mem_digits {n : Nat} {c : Char} (h : c ∈ (natDec n).data) :
    c ∈ decDigits :=
  natDecAux_mem_digits _ _ _ (by simpa [natDec] using h)

theorem natDecAux_head_ne_zero :
    ∀ fuel n, n < fuel → 1 ≤ n → ∀ c, (natDecAux fuel n).head? = some c → c ≠ '0' := by
  intro fuel
  induction fuel with
  | zero => intro n h; omega
  | succ fuel ih =>
    intro n hlt h1 c hc
    rw [natDecAux] at hc
    split at hc
    · rename_i hn
      simp at hc
      subst hc
      interval_cases n <;> decide
    · rename_i hn
      push_neg at hn
      have hne : natDecAux fuel (n / 10) ≠ [] := by
        cases fuel with
        | zero => omega
        | succ fuel => exact natDecAux_ne_nil fuel (n / 10)
      cases he : natDecAux fuel (n / 10) with
      | nil => exact absurd he hne
      | cons x xs =>
        rw [he] at hc
        simp at hc
        refine ih (n / 10) (by omega) (by omega) c ?_
        rw [he]
        simpa using hc

theorem natDec_head_ne_zero {n : Nat} (h1 : 1 ≤ n) {c : Char}
    (hc : (natDec n).data.head? = some c) : c ≠ '0' :=
  natDecAux_head_ne_zero (n + 1) n (by omega) h1 c (by simpa [natDec] using hc)

theorem natDec_data_ne_nil (n : Nat) : (natDec n).data ≠ [] := by
  simpa [natDec] using natDecAux_ne_nil n n

theorem jsOr1_eq_max (n : Nat) : jsOr1 n = max 1 n := by
  simp only [jsOr1]
  split <;> omega

/-- The trimmed string is a part of the original string. -/
theorem jsTrim_isInfix (s : String) : (jsTrim s).data <:+: s.data := by
  have h1 : s.data.dropWhile Char.isWhitespace <:+ s.data :=
    List.dropWhile_suffix _
  have h2 : (s.data.dropWhile Char.isWhitespace).reverse.dropWhile Char.isWhitespace <:+
      (s.data.dropWhile Char.isWhitespace).reverse :=
    List.dropWhile_suffix _
  have h3 : (jsTrim s).data <+: s.data.dropWhile Char.isWhitespace := by
    rw [jsTrim]
    exact List.reverse_suffix.mp (by simpa using h2)
  exact h3.isInfix.trans h1.isInfix

/-! ### Substring containment and `/0`-freedom -/

/-- `s.includes(sub)`: `sub` occurs contiguously inside `s`. -/
def containsSubstr (sub s : String) : Prop :=
  sub.data <:+: s.data

instance (sub s : String) : Decidable (containsSubstr sub s) :=
  inferInstanceAs (Decidable (sub.data <:+: s.data))

/-- The character list does not contain the two-character run `/0`. -/
def szFree (l : List Char) : Prop :=
  ¬ ['/', '0'] <:+: l

instance (l : List Char) : Decidable (szFree l) :=
  inferInstanceAs (Decidable (¬ ['/', '0'] <:+: l))

/-- The string does not contain the substring `/0`. -/
def cleanStr (s : String) : Prop :=
  szFree s.data

instance (s : String) : Decidable (cleanStr s) :=
  inferInstanceAs (Decidable (szFree s.data))

/-- Every present value of the optional string is `/0`-free. -/
def cleanOpt (o : Option String) : Prop :=
  ∀ s, o = some s → cleanStr s

theorem szFree_of_no_slash {l : List Char} (h : ∀ c ∈ l, c ≠ '/') : szFree l := by
  rintro ⟨s, t, e⟩
  exact h '/' (by rw [← e]; simp) rfl

theorem szFree_infix {w l : List Char} (h : w <:+: l) (hl : szFree l) : szFree w :=
  fun hw => hl (hw.trans h)

theorem szFree_append : ∀ a : List Char, szFree a → ∀ b : List Char, szFree b →
    (a.getLast? = some '/' → b.head? ≠ some '0') → szFree (a ++ b) := by
  intro a
  induction a with
  | nil =>
    intro _ b hb _
    simpa using hb
  | cons x a' ih =>
    intro ha b hb hab
    rintro ⟨s, t, e⟩
    cases s with
    | nil =>
      simp only [List.nil_append, List.cons_append, List.cons.injEq] at e
      obtain ⟨hx, e'⟩ := e
      cases a' with
      | nil =>
        simp only [List.nil_append] at e'
        apply hab
        · rw [← hx]
          rfl
        · rw [← e']
          rfl
      | cons y a'' =>
        simp only [List.cons_append, List.cons.injEq] at e'
        obtain ⟨hy, _⟩ := e'
        exact ha ⟨[], a'', by simp [← hx, ← hy]⟩
    | cons y s' =>
      simp only [List.cons_append, List.cons.injEq] at e
      obtain ⟨_, e'⟩ := e
      have ha' : szFree a' := szFree_infix ⟨[x], [], by simp⟩ ha
      have hab' : a'.getLast? = some '/' → b.head? ≠ some '0' := by
        intro hl'
        apply hab
        cases a' with
        | nil => simp at hl'
        | cons z zs => exact hl'
      exact ih ha' b hb hab' ⟨s', t, e'⟩

theorem cleanStr_append {s t : String} (hs : cleanStr s) (ht : cleanStr t)
    (h : s.data.getLast? = some '/' → t.data.head? ≠ some '0') : cleanStr (s ++ t) := by
  rw [cleanStr, strData_append]
  exact szFree_append _ hs _ ht h

theorem cleanStr_of_no_slash {s : String} (h : ∀ c ∈ s.data, c ≠ '/') : cleanStr s :=
  szFree_of_no_slash h

theorem cleanStr_infix {s t : String} (h : s.data <:+: t.data) (ht : cleanStr t) :
    cleanStr s :=
  szFree_infix h ht

theorem mem_decDigits_ne_slash {c : Char} (h : c ∈ decDigits) : c ≠ '/' :=
  (by decide : ∀ c ∈ decDigits, c ≠ '/') c h

theorem mem_hexDigits_ne_slash {c : Char} (h : c ∈ hexDigits) : c ≠ '/' :=
  (by decide : ∀ c ∈ hexDigits, c ≠ '/') c h

theorem cleanStr_natDec (n : Nat) : cleanStr (natDec n) :=
  cleanStr_of_no_slash fun _ hc => mem_decDigits_ne_slash (natDec_mem_digits hc)

theorem cleanStr_jsTrim {s : String} (h : cleanStr s) : cleanStr (jsTrim s) :=
  cleanStr_infix (jsTrim_isInfix s) h

theorem cleanStr_optTrim {o : Option String} (h : cleanOpt o) : cleanStr (optTrim o) := by
  cases o with
  | none => decide
  | some s => exact cleanStr_jsTrim (h s rfl)

theorem cleanStr_getD {o : Option String} (h : cleanOpt o) : cleanStr (o.getD "") := by
  cases o with
  | none => decide
  | some s => exact h s rfl

/-! ### Facts about the secret-hint formatter -/

theorem formatTokenHint_ne_empty (tok : String) (b : Bool) :
    formatTokenHint tok b ≠ "" := by
  simp only [formatTokenHint]
  split_ifs with h1 h2 h3
  · decide
  · apply str_ne_empty_of_data_ne_nil
    intro h
    simp only [strData_append, List.append_eq_nil] at h
    exact natDec_data_ne_nil _ h.2
  · apply str_ne_empty_of_data_ne_nil
    intro h
    simp only [strData_append, List.append_eq_nil] at h
    exact natDec_data_ne_nil _ h.2
  · apply str_ne_empty_of_data_ne_nil
    intro h
    simp only [strData_append, List.append_eq_nil] at h
    exact natDec_data_ne_nil _ h.2

theorem sha256Hex_mem {s : String} {c : Char} (h : c ∈ (sha256Hex s).data) :
    c ∈ hexDigits := by
  simp only [sha256Hex, strData_mk, List.mem_flatMap] at h
  obtain ⟨w, _, hw⟩ := h
  simp only [wordToHex, List.mem_map] at hw
  obtain ⟨i, _, hi⟩ := hw
  exact hi ▸ getD_mem (by decide) _

theorem sha256HexHead_mem {s : String} {k : Nat} {c : Char}
    (h : c ∈ (sha256HexHead s k).data) : c ∈ hexDigits := by
  simp only [sha256HexHead, strTake, strData_mk] at h
  exact sha256Hex_mem (List.mem_of_mem_take h)

/-- Every character the fingerprint rendering can emit: the lowercase hex
digits, plus the frame characters of `sha256:` and ` · len `. -/
def hintAlphabet : List Char :=
  hexDigits ++ ['s', 'h', ':', ' ', '·', 'l', 'e', 'n']

theorem formatTokenHint_false_eq {x : String} (hx : jsTrim x ≠ "") :
    (formatTokenHint x false).data =
      "sha256:".data ++ ((sha256HexHead (jsTrim x) 8).data
        ++ (" · len ".data ++ (natDec (jsTrim x).length).data)) := by
  rw [formatTokenHint, if_neg hx]
  simp [strData_append, List.append_assoc]

theorem formatTokenHint_false_mem {x : String} (hx : jsTrim x ≠ "") {c : Char}
    (h : c ∈ (formatTokenHint x false).data) : c ∈ hintAlphabet := by
  rw [formatTokenHint_false_eq hx] at h
  rcases List.mem_append.1 h with h | h
  · have h' : c ∈ ['s', 'h', 'a', '2', '5', '6', ':'] := h
    fin_cases h' <;> decide
  rcases List.mem_append.1 h with h | h
  · exact List.mem_append.2 (Or.inl (sha256HexHead_mem h))
  rcases List.mem_append.1 h with h | h
  · have h' : c ∈ [' ', '·', ' ', 'l', 'e', 'n', ' '] := h
    fin_cases h' <;> decide
  · exact (by decide : ∀ c ∈ decDigits, c ∈ hintAlphabet) c (natDec_mem_digits h)

/-! ## Claims -/

/-- C2 (counterexample): on `["env", "env", "file"]` the summarizer's
`parts` keep the `×2` count marker, so the claimed value
`{label := "env×2+file", parts := ["env", "file"]}` is wrong. -/
theorem c2_counterexample :
    summarizeSources [some "env", some "env", some "file"] ≠
      { label := "env×2+file", parts := ["env", "file"] } := by
  decide

/-- C2 (amended): the Source Summarizer maps `["env", "env", "file"]` to
label `"env×2+file"` with parts `["env×2", "file"]` (the rendered pieces,
count suffixes included, count-descending in first-seen order), and maps
the empty list to label `"unknown"` with empty parts. -/
theorem c2_amended :
    summarizeSources [some "env", some "env", some "file"] =
      { label := "env×2+file", parts := ["env×2", "file"] } ∧
    summarizeSources [] = { label := "unknown", parts := [] } := by
  decide

/-- C4: the Secret Hint Formatter is total, returns `"empty"` on blank
input, reveals the full trimmed value plus its length under
`showSecrets = true` when the trimmed length is at most 10, and reveals
only the first four and last four characters joined by an ellipsis plus the
length when the trimmed length exceeds 10. -/
theorem c4_formatTokenHint (token : String) (showSecrets : Bool) :
    (jsTrim token = "" → formatTokenHint token showSecrets = "empty") ∧
    (jsTrim token ≠ "" → (jsTrim token).length ≤ 10 →
      formatTokenHint token true =
        jsTrim token ++ " · len " ++ natDec (jsTrim token).length) ∧
    (jsTrim token ≠ "" → 10 < (jsTrim token).length →
      formatTokenHint token true =
        strTake (jsTrim token) 4 ++ "…" ++ strTakeEnd (jsTrim token) 4
          ++ " · len " ++ natDec (jsTrim token).length) := by
  refine ⟨fun h => ?_, fun h hle => ?_, fun h hgt => ?_⟩
  · rw [formatTokenHint, if_pos h]
  · rw [formatTokenHint, if_neg h]
    simp [hle]
  · rw [formatTokenHint, if_neg h]
    simp [Nat.not_le.2 hgt]

/-- C4 (witness): the formatter at the two boundary examples of the spec. -/
theorem c4_witness :
    formatTokenHint "abcdefghij" true = "abcdefghij · len 10" ∧
    formatTokenHint "abcdefghijk" true = "abcd…hijk · len 11" := by
  constructor
  · rw [(c4_formatTokenHint "abcdefghij" true).2.1 (by decide) (by decide)]
    decide
  · rw [(c4_formatTokenHint "abcdefghijk" true).2.2 (by decide) (by decide)]
    decide

/-- C3 (counterexample): `"sha2"` is a non-blank credential of length 4,
and the masked output `formatTokenHint "sha2" false` starts with the frame
`sha256:`, which contains the whole input as a substring of length 4. -/
theorem c3_counterexample :
    jsTrim "sha2" ≠ "" ∧ 4 ≤ "sha2".data.length ∧
    containsSubstr "sha2" "sha2" ∧
    containsSubstr "sha2" (formatTokenHint "sha2" false) := by
  refine ⟨by decide, by decide, by decide, ?_⟩
  decide

/-- C3 (amended): for every non-blank credential `x`, the masked output
contains no substring of `x` of length at least 4 that uses any character
outside the fixed output alphabet (lowercase hex digits plus the frame
characters of `sha256:` and ` · len `); substrings of `x` drawn entirely
from that alphabet can coincide with the frame or the digest, as the
counterexample `x = "sha2"` shows. -/
theorem c3_amended (x : String) (w : List Char) (hx : jsTrim x ≠ "")
    (hw : w <:+: x.data) (hlen : 4 ≤ w.length)
    (hc : ∃ c ∈ w, c ∉ hintAlphabet) :
    ¬ w <:+: (formatTokenHint x false).data := by
  intro hinf
  obtain ⟨c, hcw, hca⟩ := hc
  exact hca (formatTokenHint_false_mem hx (hinf.subset hcw))

/-- C3 (witness): a password with a non-alphabet character is never leaked
by the masked rendering. -/
theorem c3_witness :
    ¬ "päss".data <:+: (formatTokenHint "päss" false).data :=
  c3_amended "päss" "päss".data (by decide) (by decide) (by decide)
    ⟨'ä', by decide, by decide⟩

/-- C1: in every built table, a row's state is `off` exactly when its
enabled flag is `false`, for all seven providers and every input. -/
theorem c1_state_off_iff (cfg : ClawdbotConfig) (ext : Externals) (opts : Option Bool) :
    ∀ row ∈ (buildProvidersTable cfg ext opts).rows,
      (row.state = ProviderState.off ↔ row.enabled = false) := by
  intro row hrow
  simp only [buildProvidersTable, List.mem_cons, List.not_mem_nil, or_false] at hrow
  rcases hrow with h | h | h | h | h | h | h <;> subst h
  · cases hw : waEnabled cfg
    · simp [whatsAppRow, hw]
    · cases hl : waLinked cfg ext <;> simp [whatsAppRow, hw, hl]
  · cases ht : tgEnabled cfg
    · simp [telegramRow, ht]
    · cases hm : tgMisconfigured cfg ext
      · by_cases htk : (tgTokenAccounts ext).length > 0 <;>
          simp [telegramRow, ht, hm, htk]
      · simp [telegramRow, ht, hm]
  · cases hd : dcEnabled cfg
    · simp [discordRow, hd]
    · by_cases hdk : (dcTokenAccounts ext).length > 0 <;> simp [discordRow, hd, hdk]
  · cases hs : slEnabled cfg
    · simp [slackRow, hs]
    · by_cases hp : (slackPartialTokens ext).length > 0
      · simp [slackRow, hs, hp]
      · by_cases hr : (slackReady ext).length > 0 <;> simp [slackRow, hs, hp, hr]
  · cases hsi : siEnabled cfg
    · simp [signalRow, hsi]
    · by_cases hc : (siConfiguredAccounts ext).length > 0 <;> simp [signalRow, hsi, hc]
  · cases him : imEnabled cfg
    · simp [imessageRow, him]
    · by_cases hc : (imConfiguredAccounts ext).length > 0 <;> simp [imessageRow, him, hc]
  · cases hm : msEnabled cfg
    · simp [msteamsRow, hm]
    · cases hcr : msCreds cfg ext
      · cases hap : msAnyPresent cfg ext <;> simp [msteamsRow, hm, hcr, hap]
      · simp [msteamsRow, hm, hcr]

/-- C1 (witness): the invariant at the WhatsApp row of the empty
configuration. -/
theorem c1_witness :
    (whatsAppRow emptyCfg emptyExt).state = ProviderState.off ↔
      (whatsAppRow emptyCfg emptyExt).enabled = false :=
  c1_state_off_iff emptyCfg emptyExt none (whatsAppRow emptyCfg emptyExt)
    (by simp [buildProvidersTable])

/-- C6: with Telegram enabled, a configured global token file whose path
fails the existence probe makes the Telegram row `warn`, and the detail
names `telegram.tokenFile`. -/
theorem c6_telegram_tokenfile_warn (cfg : ClawdbotConfig) (ext : Externals)
    (opts : Option Bool)
    (hen : tgEnabled cfg = true)
    (hfile : optTrim (cfg.telegram.bind (·.tokenFile)) ≠ "")
    (hmiss : tgGlobalTokenFileOk cfg ext = some false) :
    ∃ row ∈ (buildProvidersTable cfg ext opts).rows,
      row.provider = "Telegram" ∧ row.state = ProviderState.warn ∧
      containsSubstr "telegram.tokenFile" row.detail := by
  have hrest : ∃ rest, tgMissingFiles cfg ext = "telegram.tokenFile" :: rest := by
    rw [tgMissingFiles, if_pos ⟨hen, hfile, hmiss⟩]
    exact ⟨_, rfl⟩
  obtain ⟨rest, hrest⟩ := hrest
  have hmis : tgMisconfigured cfg ext = true := by
    simp [tgMisconfigured, hrest]
  refine ⟨telegramRow cfg ext (opts.getD false), by simp [buildProvidersTable],
    rfl, ?_, ?_⟩
  · simp [telegramRow, hen, hmis]
  · have hdet : (telegramRow cfg ext (opts.getD false)).detail =
        "token file missing (" ++ "telegram.tokenFile" ++ ")" := by
      simp [telegramRow, hen, hmis, hrest]
    rw [hdet]
    decide

def c6tg : TelegramConfig :=
  { enabled := none, tokenFile := some "/tmp/missing-token", accounts := none }

def c6cfg : ClawdbotConfig :=
  { emptyCfg with telegram := some c6tg }

def c6ext : Externals :=
  { emptyExt with fs := fun _ => some false }

/-- C6 (witness): the scenario at a concrete configuration whose token file
never exists. -/
theorem c6_witness :
    ∃ row ∈ (buildProvidersTable c6cfg c6ext none).rows,
      row.provider = "Telegram" ∧ row.state = ProviderState.warn ∧
      containsSubstr "telegram.tokenFile" row.detail :=
  c6_telegram_tokenfile_warn c6cfg c6ext none (by decide) (by decide) (by decide)

/-- C7: with Slack enabled, any enabled account carrying exactly one of the
two tokens makes the Slack row `warn` with a detail mentioning
`partial tokens`, regardless of the other accounts. -/
theorem c7_slack_partial_warn (cfg : ClawdbotConfig) (ext : Externals)
    (opts : Option Bool)
    (hen : slEnabled cfg = true)
    (ha : ∃ a ∈ slEnabledAccounts ext,
      (optTrim a.botToken ≠ "" ∧ optTrim a.appToken = "") ∨
      (optTrim a.botToken = "" ∧ optTrim a.appToken ≠ "")) :
    ∃ row ∈ (buildProvidersTable cfg ext opts).rows,
      row.provider = "Slack" ∧ row.state = ProviderState.warn ∧
      containsSubstr "partial tokens" row.detail := by
  obtain ⟨a, hmem, hcase⟩ := ha
  have hpred : ((optTrim a.botToken != "" && optTrim a.appToken == "")
      || (optTrim a.botToken == "" && optTrim a.appToken != "")) = true := by
    rcases hcase with ⟨h1, h2⟩ | ⟨h1, h2⟩ <;> simp [h1, h2]
  have hmemP : a ∈ slackPartialTokens ext := List.mem_filter.2 ⟨hmem, hpred⟩
  have hlen : (slackPartialTokens ext).length > 0 :=
    List.length_pos.2 (List.ne_nil_of_mem hmemP)
  refine ⟨slackRow cfg ext (opts.getD false), by simp [buildProvidersTable],
    rfl, ?_, ?_⟩
  · simp [slackRow, hen, hlen]
  · have hdet : (slackRow cfg ext (opts.getD false)).detail =
        "partial tokens (need bot+app) · accounts "
          ++ natDec (slackPartialTokens ext).length := by
      simp [slackRow, hen, hlen]
    rw [hdet]
    refine ⟨[], " (need bot+app) · accounts ".data
      ++ (natDec (slackPartialTokens ext).length).data, ?_⟩
    rw [strData_append]
    simp only [List.nil_append, ← List.append_assoc]
    congr 1

def c7acct1 : SlackAccount :=
  { enabled := true, botToken := some "xoxb-1", appToken := none,
    botTokenSource := some "env", appTokenSource := none }

def c7acct2 : SlackAccount :=
  { enabled := true, botToken := some "xoxb-2", appToken := some "xapp-2",
    botTokenSource := some "env", appTokenSource := some "env" }

def c7ext : Externals :=
  { emptyExt with slackAccounts := [c7acct1, c7acct2] }

/-- C7 (witness): one enabled account with only a bot token wins over a
second enabled account holding both tokens. -/
theorem c7_witness :
    ∃ row ∈ (buildProvidersTable emptyCfg c7ext none).rows,
      row.provider = "Slack" ∧ row.state = ProviderState.warn ∧
      containsSubstr "partial tokens" row.detail :=
  c7_slack_partial_warn emptyCfg c7ext none (by decide)
    ⟨c7acct1, by decide, by decide⟩

/-- C8: with MS Teams enabled and no credential supplied by configuration
or environment, the MS Teams row is `setup` and the detail names all three
missing keys. -/
theorem c8_msteams_setup (cfg : ClawdbotConfig) (ext : Externals)
    (opts : Option Bool)
    (hen : msEnabled cfg = true)
    (h1 : optTrim (cfg.msteams.bind (·.appId)) = "")
    (h2 : optTrim (ext.env "MSTEAMS_APP_ID") = "")
    (h3 : optTrim (cfg.msteams.bind (·.appPassword)) = "")
    (h4 : optTrim (ext.env "MSTEAMS_APP_PASSWORD") = "")
    (h5 : optTrim (cfg.msteams.bind (·.tenantId)) = "")
    (h6 : optTrim (ext.env "MSTEAMS_TENANT_ID") = "") :
    ∃ row ∈ (buildProvidersTable cfg ext opts).rows,
      row.provider = "MS Teams" ∧ row.state = ProviderState.setup ∧
      row.detail = "no credentials (MSTEAMS_APP_ID / _PASSWORD / _TENANT_ID)" ∧
      containsSubstr "MSTEAMS_APP_ID" row.detail ∧
      containsSubstr "_PASSWORD" row.detail ∧
      containsSubstr "_TENANT_ID" row.detail := by
  have hid : msAppId cfg ext = "" := by
    simp [msAppId, h1, h2]
  have hpw : msAppPassword cfg ext = "" := by
    simp [msAppPassword, h3, h4]
  have htn : msTenantId cfg ext = "" := by
    simp [msTenantId, h5, h6]
  have hcr : msCreds cfg ext = false := by
    simp [msCreds, hid]
  have hap : msAnyPresent cfg ext = false := by
    simp [msAnyPresent, hid, hpw, htn]
  have hdet : (msteamsRow cfg ext (opts.getD false)).detail =
      "no credentials (MSTEAMS_APP_ID / _PASSWORD / _TENANT_ID)" := by
    simp [msteamsRow, hen, hcr, hap]
  refine ⟨msteamsRow cfg ext (opts.getD false), by simp [buildProvidersTable],
    rfl, ?_, hdet, ?_, ?_, ?_⟩
  · simp [msteamsRow, hen, hcr, hap]
  · rw [hdet]; decide
  · rw [hdet]; decide
  · rw [hdet]; decide

/-- C8 (witness): the scenario at the empty configuration and empty
environment. -/
theorem c8_witness :
    ∃ row ∈ (buildProvidersTable emptyCfg emptyExt none).rows,
      row.provider = "MS Teams" ∧ row.state = ProviderState.setup ∧
      row.detail = "no credentials (MSTEAMS_APP_ID / _PASSWORD / _TENANT_ID)" ∧
      containsSubstr "MSTEAMS_APP_ID" row.detail ∧
      containsSubstr "_PASSWORD" row.detail ∧
      containsSubstr "_TENANT_ID" row.detail :=
  c8_msteams_setup emptyCfg emptyExt none (by decide) (by decide) (by decide)
    (by decide) (by decide) (by decide) (by decide)

/-- C10: when the Slack ready list is a single account, an absent
`botTokenSource`/`appTokenSource` renders as `"none"` in the sources
summary (not as the summarizer's default `"unknown"`), and each token hint
is suppressed exactly when the sample account's source tag is the string
`"none"`. -/
theorem c10_slack_none_tag (ext : Externals) (showSecrets : Bool)
    (a : SlackAccount) (hready : slackReady ext = [a]) :
    (a.botTokenSource = none →
      slackBotSources ext = { label := "none", parts := ["none"] }) ∧
    (a.appTokenSource = none →
      slackAppSources ext = { label := "none", parts := ["none"] }) ∧
    (slackBotHint ext showSecrets = "" ↔ a.botTokenSource = some "none") ∧
    (slackAppHint ext showSecrets = "" ↔ a.appTokenSource = some "none") := by
  have hmem : a ∈ slackReady ext := by
    rw [hready]
    exact List.mem_singleton.2 rfl
  have hpred := List.of_mem_filter hmem
  have hsplit : (optTrim a.botToken != "") = true
      ∧ (optTrim a.appToken != "") = true := by
    have h' := hpred
    simp only [Bool.and_eq_true] at h'
    exact h'
  have hbt := hsplit.1
  have hat := hsplit.2
  have hsample : slackSample ext = some a := by
    rw [slackSample, hready]
    rfl
  refine ⟨fun htag => ?_, fun htag => ?_, ⟨fun hh => ?_, fun htag => ?_⟩,
    ⟨fun hh => ?_, fun htag => ?_⟩⟩
  · have hmap : (slackReady ext).map (fun x => some (x.botTokenSource.getD "none"))
        = [some "none"] := by
      rw [hready]
      simp [htag]
    rw [slackBotSources, hmap]
    decide
  · have hmap : (slackReady ext).map (fun x => some (x.appTokenSource.getD "none"))
        = [some "none"] := by
      rw [hready]
      simp [htag]
    rw [slackAppSources, hmap]
    decide
  · by_contra hne
    have heq : slackBotHint ext showSecrets
        = formatTokenHint (a.botToken.getD "") showSecrets := by
      simp only [slackBotHint, hsample]
      simp [hbt, hne]
    exact formatTokenHint_ne_empty _ _ (heq ▸ hh)
  · simp only [slackBotHint, hsample]
    simp [htag]
  · by_contra hne
    have heq : slackAppHint ext showSecrets
        = formatTokenHint (a.appToken.getD "") showSecrets := by
      simp only [slackAppHint, hsample]
      simp [hat, hne]
    exact formatTokenHint_ne_empty _ _ (heq ▸ hh)
  · simp only [slackAppHint, hsample]
    simp [htag]

def c10acct : SlackAccount :=
  { enabled := true, botToken := some "xoxb-10", appToken := some "xapp-10",
    botTokenSource := none, appTokenSource := some "none" }

def c10ext : Externals :=
  { emptyExt with slackAccounts := [c10acct] }

/-- C10 (witness): an absent bot source renders as `none` with the bot hint
kept, while an explicit `"none"` app source suppresses the app hint. -/
theorem c10_witness :
    slackBotSources c10ext = { label := "none", parts := ["none"] } ∧
    slackAppHint c10ext true = "" ∧
    slackBotHint c10ext true ≠ "" := by
  have h := c10_slack_none_tag c10ext true c10acct (by decide)
  exact ⟨h.1 rfl, h.2.2.2.mpr rfl,
    fun he => absurd (h.2.2.1.mp he) (by decide)⟩

def c5tgAcctCfg : TelegramAccountConfig :=
  { tokenFile := some "/tmp/other-missing" }

def c5tg : TelegramConfig :=
  { enabled := none, tokenFile := none, accounts := some [("a", c5tgAcctCfg)] }

def c5cfg : ClawdbotConfig :=
  { emptyCfg with telegram := some c5tg }

def c5acct : TelegramAccount :=
  { enabled := false, token := none, tokenSource := none }

def c5fs : String → Option Bool := fun _ => some false

def c5ext : Externals :=
  { emptyExt with telegramAccounts := [("a", c5acct)], fs := c5fs }

/-- C5 (counterexample): Telegram has no enabled account at all, yet the
missing token file declared for the disabled account `a` makes the Telegram
row `warn` — a disabled account's inconsistency does produce `warn`. -/
theorem c5_counterexample :
    (∃ row ∈ (buildProvidersTable c5cfg c5ext none).rows,
      row.provider = "Telegram" ∧ row.state = ProviderState.warn) ∧
    tgEnabledAccounts c5ext = [] := by
  decide

/-- C5 (amended): a row is `warn` only when its provider is enabled and the
provider-specific inconsistency holds — Telegram: some declared non-blank
token file path (global, or of any listed account, regardless of that
account's own enabled flag) fails the existence probe; Slack: some enabled
account carries exactly one of the two tokens; MS Teams: some but not all
of the three credentials are present.  WhatsApp, Discord, Signal and
iMessage rows are never `warn`. -/
theorem c5_amended (cfg : ClawdbotConfig) (ext : Externals) (opts : Option Bool) :
    ∀ row ∈ (buildProvidersTable cfg ext opts).rows,
      row.state = ProviderState.warn →
        (row.provider = "Telegram" ∧ tgEnabled cfg = true ∧
          tgMissingFiles cfg ext ≠ []) ∨
        (row.provider = "Slack" ∧ slEnabled cfg = true ∧
          slackPartialTokens ext ≠ []) ∨
        (row.provider = "MS Teams" ∧ msEnabled cfg = true ∧
          msCreds cfg ext = false ∧ msAnyPresent cfg ext = true) := by
  intro row hrow hw
  simp only [buildProvidersTable, List.mem_cons, List.not_mem_nil, or_false] at hrow
  rcases hrow with h | h | h | h | h | h | h <;> subst h
  · exfalso
    cases hwa : waEnabled cfg
    · simp [whatsAppRow, hwa] at hw
    · cases hl : waLinked cfg ext <;> simp [whatsAppRow, hwa, hl] at hw
  · cases ht : tgEnabled cfg
    · simp [telegramRow, ht] at hw
    · cases hm : tgMisconfigured cfg ext
      · exfalso
        by_cases htk : (tgTokenAccounts ext).length > 0 <;>
          simp [telegramRow, ht, hm, htk] at hw
      · have hne : tgMissingFiles cfg ext ≠ [] := by
          have hm' := hm
          simp only [tgMisconfigured, decide_eq_true_eq] at hm'
          exact List.ne_nil_of_length_pos hm'
        exact Or.inl ⟨rfl, rfl, hne⟩
  · exfalso
    cases hd : dcEnabled cfg
    · simp [discordRow, hd] at hw
    · by_cases hdk : (dcTokenAccounts ext).length > 0 <;>
        simp [discordRow, hd, hdk] at hw
  · cases hs : slEnabled cfg
    · simp [slackRow, hs] at hw
    · by_cases hp : (slackPartialTokens ext).length > 0
      · exact Or.inr (Or.inl ⟨rfl, rfl, List.ne_nil_of_length_pos hp⟩)
      · exfalso
        by_cases hr : (slackReady ext).length > 0 <;>
          simp [slackRow, hs, hp, hr] at hw
  · exfalso
    cases hsi : siEnabled cfg
    · simp [signalRow, hsi] at hw
    · by_cases hc : (siConfiguredAccounts ext).length > 0 <;>
        simp [signalRow, hsi, hc] at hw
  · exfalso
    cases him : imEnabled cfg
    · simp [imessageRow, him] at hw
    · by_cases hc : (imConfiguredAccounts ext).length > 0 <;>
        simp [imessageRow, him, hc] at hw
  · cases hms : msEnabled cfg
    · simp [msteamsRow, hms] at hw
    · cases hcr : msCreds cfg ext
      · cases hap : msAnyPresent cfg ext
        · simp [msteamsRow, hms, hcr, hap] at hw
        · exact Or.inr (Or.inr ⟨rfl, rfl, rfl, rfl⟩)
      · simp [msteamsRow, hms, hcr] at hw

/-- C5 (witness): the amended statement applied to the counterexample
configuration, where the Telegram disjunct holds. -/
theorem c5_witness :
    ((telegramRow c5cfg c5ext false).provider = "Telegram" ∧
      tgEnabled c5cfg = true ∧ tgMissingFiles c5cfg c5ext ≠ []) ∨
    ((telegramRow c5cfg c5ext false).provider = "Slack" ∧
      slEnabled c5cfg = true ∧ slackPartialTokens c5ext ≠ []) ∨
    ((telegramRow c5cfg c5ext false).provider = "MS Teams" ∧
      msEnabled c5cfg = true ∧ msCreds c5cfg c5ext = false ∧
      msAnyPresent c5cfg c5ext = true) :=
  c5_amended c5cfg c5ext none (telegramRow c5cfg c5ext false)
    (by decide) (by decide)

/-! ### `/0`-freedom of the rendered pieces -/

theorem strHead_lit {s : String} (t : String) (h : s.data ≠ []) :
    (s ++ t).data.head? = s.data.head? := by
  rw [strData_append]
  exact List.head?_append_of_ne_nil _ h

theorem strLast_lit (s : String) {t : String} (h : t.data ≠ []) :
    (s ++ t).data.getLast? = t.data.getLast? := by
  rw [strData_append]
  exact List.getLast?_append_of_ne_nil _ h

theorem natDec_pos_head {n : Nat} (h : 1 ≤ n) :
    (natDec n).data.head? ≠ some '0' :=
  fun habs => natDec_head_ne_zero h habs rfl

theorem jsOr1_pos (n : Nat) : 1 ≤ jsOr1 n := by
  simp only [jsOr1]
  split <;> omega

theorem cleanStr_append_right {s t : String} (hs : cleanStr s) (ht : cleanStr t)
    (hh : t.data.head? ≠ some '0') : cleanStr (s ++ t) :=
  cleanStr_append hs ht (fun _ => hh)

theorem cleanStr_append_left {s t : String} (hs : cleanStr s) (ht : cleanStr t)
    (hl : s.data.getLast? ≠ some '/') : cleanStr (s ++ t) :=
  cleanStr_append hs ht (fun h => absurd h hl)

theorem cleanStr_strTake {s : String} (h : cleanStr s) (n : Nat) :
    cleanStr (strTake s n) :=
  cleanStr_infix (List.take_prefix n s.data).isInfix h

theorem cleanStr_strTakeEnd {s : String} (h : cleanStr s) (n : Nat) :
    cleanStr (strTakeEnd s n) :=
  cleanStr_infix (List.drop_suffix _ s.data).isInfix h

/-- The tail ` · accounts a/b` of an `ok` detail is `/0`-free whenever the
part before the slash ends in a digit and the denominator is positive. -/
theorem cleanStr_fraction {s : String} (hs : cleanStr s)
    (hl : s.data.getLast? ≠ some '/') (a b : Nat) (hb : 1 ≤ b) :
    cleanStr (s ++ natDec a ++ "/" ++ natDec b) := by
  have h1 : cleanStr (s ++ natDec a) :=
    cleanStr_append_left hs (cleanStr_natDec a) hl
  have h2 : cleanStr (s ++ natDec a ++ "/") :=
    cleanStr_append_right h1 (by decide) (by decide)
  exact cleanStr_append h2 (cleanStr_natDec b) (fun _ => natDec_pos_head hb)

/-- The secret hint formatter never introduces `/0` when the credential
itself is `/0`-free. -/
theorem cleanStr_hint {tok : String} (h : cleanStr tok) (b : Bool) :
    cleanStr (formatTokenHint tok b) := by
  have htrim : cleanStr (jsTrim tok) := cleanStr_jsTrim h
  rw [formatTokenHint]
  split_ifs with h1 h2 h3
  · decide
  · apply cleanStr_of_no_slash
    intro c hc
    simp only [strData_append, List.mem_append] at hc
    rcases hc with ((hc | hc) | hc) | hc
    · have h' : c ∈ ['s', 'h', 'a', '2', '5', '6', ':'] := hc
      fin_cases h' <;> decide
    · exact mem_hexDigits_ne_slash (sha256HexHead_mem hc)
    · have h' : c ∈ [' ', '·', ' ', 'l', 'e', 'n', ' '] := hc
      fin_cases h' <;> decide
    · exact mem_decDigits_ne_slash (natDec_mem_digits hc)
  · have hA : cleanStr (jsTrim tok ++ " · len ") :=
      cleanStr_append_right htrim (by decide) (by decide)
    refine cleanStr_append hA (cleanStr_natDec _) ?_
    rw [strLast_lit _ (by decide)]
    intro habs
    exact absurd habs (by decide)
  · have hA : cleanStr (strTake (jsTrim tok) 4 ++ "…") :=
      cleanStr_append_right (cleanStr_strTake htrim 4) (by decide) (by decide)
    have hB : cleanStr (strTake (jsTrim tok) 4 ++ "…" ++ strTakeEnd (jsTrim tok) 4) := by
      refine cleanStr_append_left hA (cleanStr_strTakeEnd htrim 4) ?_
      rw [strLast_lit _ (by decide)]
      decide
    have hC : cleanStr (strTake (jsTrim tok) 4 ++ "…" ++ strTakeEnd (jsTrim tok) 4
        ++ " · len ") :=
      cleanStr_append_right hB (by decide) (by decide)
    refine cleanStr_append hC (cleanStr_natDec _) ?_
    rw [strLast_lit _ (by decide)]
    intro habs
    exact absurd habs (by decide)

theorem mem_bumpCount : ∀ (acc : List (String × Nat)) (key : String)
    (kn : String × Nat), kn ∈ bumpCount key acc → kn.1 = key ∨ kn ∈ acc := by
  intro acc
  induction acc with
  | nil =>
    intro key kn h
    simp only [bumpCount, List.mem_singleton] at h
    exact Or.inl (by rw [h])
  | cons p rest ih =>
    intro key kn h
    obtain ⟨k, n⟩ := p
    rw [bumpCount] at h
    split at h
    · rename_i heq
      rcases List.mem_cons.1 h with h' | h'
      · exact Or.inl (by rw [h']; exact heq)
      · exact Or.inr (List.mem_cons_of_mem _ h')
    · rcases List.mem_cons.1 h with h' | h'
      · exact Or.inr (by rw [h']; exact List.mem_cons_self _ _)
      · rcases ih key kn h' with h'' | h''
        · exact Or.inl h''
        · exact Or.inr (List.mem_cons_of_mem _ h'')

theorem mem_foldl_bump : ∀ (l : List (Option String)) (acc : List (String × Nat))
    (kn : String × Nat),
    kn ∈ l.foldl (fun acc s => bumpCount (sourceKey s) acc) acc →
      kn ∈ acc ∨ ∃ s ∈ l, kn.1 = sourceKey s := by
  intro l
  induction l with
  | nil =>
    intro acc kn h
    exact Or.inl h
  | cons s rest ih =>
    intro acc kn h
    rw [List.foldl_cons] at h
    rcases ih _ kn h with h' | h'
    · rcases mem_bumpCount _ _ _ h' with h'' | h''
      · exact Or.inr ⟨s, List.mem_cons_self _ _, h''⟩
      · exact Or.inl h''
    · obtain ⟨s', hs', he⟩ := h'
      exact Or.inr ⟨s', List.mem_cons_of_mem _ hs', he⟩

theorem mem_insertCountDesc : ∀ (l : List (String × Nat)) (x kn : String × Nat),
    kn ∈ insertCountDesc x l → kn = x ∨ kn ∈ l := by
  intro l
  induction l with
  | nil =>
    intro x kn h
    simp only [insertCountDesc, List.mem_singleton] at h
    exact Or.inl h
  | cons y ys ih =>
    intro x kn h
    rw [insertCountDesc] at h
    split at h
    · rcases List.mem_cons.1 h with h' | h'
      · exact Or.inl h'
      · exact Or.inr h'
    · rcases List.mem_cons.1 h with h' | h'
      · exact Or.inr (by rw [h']; exact List.mem_cons_self _ _)
      · rcases ih x kn h' with h'' | h''
        · exact Or.inl h''
        · exact Or.inr (List.mem_cons_of_mem _ h'')

theorem mem_sortCountDesc : ∀ (l : List (String × Nat)) (kn : String × Nat),
    kn ∈ sortCountDesc l → kn ∈ l := by
  intro l
  induction l with
  | nil =>
    intro kn h
    simpa [sortCountDesc] using h
  | cons x xs ih =>
    intro kn h
    rw [sortCountDesc, List.foldr_cons] at h
    rcases mem_insertCountDesc _ _ _ h with h' | h'
    · exact h' ▸ List.mem_cons_self _ _
    · refine List.mem_cons_of_mem _ (ih kn ?_)
      rw [sortCountDesc]
      exact h'

theorem cleanStr_sourceKey {s : Option String} (h : cleanStr (optTrim s)) :
    cleanStr (sourceKey s) := by
  rw [sourceKey]
  split
  · exact h
  · decide

theorem cleanStr_joinSep (sep : String) (hsep : cleanStr sep)
    (hne : sep.data ≠ []) (hh : sep.data.head? ≠ some '0')
    (hl : sep.data.getLast? ≠ some '/') :
    ∀ l : List String, (∀ p ∈ l, cleanStr p) → cleanStr (joinSep sep l) := by
  intro l
  induction l with
  | nil =>
    intro _
    show cleanStr ""
    decide
  | cons x xs ih =>
    intro hp
    cases xs with
    | nil => simpa [joinSep] using hp x (List.mem_singleton.2 rfl)
    | cons y ys =>
      rw [joinSep]
      have hx : cleanStr x := hp x (List.mem_cons_self _ _)
      have hxs : cleanStr (joinSep sep (y :: ys)) :=
        ih (fun p hq => hp p (List.mem_cons_of_mem _ hq))
      have hxsep : cleanStr (x ++ sep) := cleanStr_append hx hsep (fun _ => hh)
      refine cleanStr_append_left hxsep hxs ?_
      rw [strLast_lit _ hne]
      exact hl

theorem cleanStr_label (sources : List (Option String))
    (h : ∀ s ∈ sources, cleanStr (sourceKey s)) :
    cleanStr (summarizeSources sources).label := by
  have hkeys : ∀ kn ∈ sortCountDesc
      (sources.foldl (fun acc s => bumpCount (sourceKey s) acc) []),
      cleanStr kn.1 := by
    intro kn hkn
    rcases mem_foldl_bump sources [] kn (mem_sortCountDesc _ kn hkn) with h' | h'
    · simp at h'
    · obtain ⟨s, hs, he⟩ := h'
      rw [he]
      exact h s hs
  have hparts : ∀ p ∈ (sortCountDesc
      (sources.foldl (fun acc s => bumpCount (sourceKey s) acc) [])).map
      (fun kn => kn.1 ++ (if kn.2 > 1 then "×" ++ natDec kn.2 else "")),
      cleanStr p := by
    intro p hp
    rcases List.mem_map.1 hp with ⟨kn, hkn, rfl⟩
    have hk := hkeys kn hkn
    split
    · refine cleanStr_append_right hk ?_ ?_
      · exact cleanStr_append_left (by decide) (cleanStr_natDec _) (by decide)
      · rw [strHead_lit _ (by decide)]
        decide
    · exact cleanStr_append_right hk (by decide) (by decide)
  show cleanStr (if ((sortCountDesc
      (sources.foldl (fun acc s => bumpCount (sourceKey s) acc) [])).map
      (fun kn => kn.1 ++ (if kn.2 > 1 then "×" ++ natDec kn.2 else ""))).length > 0
    then joinSep "+" ((sortCountDesc
      (sources.foldl (fun acc s => bumpCount (sourceKey s) acc) [])).map
      (fun kn => kn.1 ++ (if kn.2 > 1 then "×" ++ natDec kn.2 else "")))
    else "unknown")
  split
  · exact cleanStr_joinSep "+" (by decide) (by decide) (by decide) (by decide) _ hparts
  · decide

/-- The externally supplied strings that can flow into a row detail are all
free of the substring `/0`. -/
structure CleanInputs (cfg : ClawdbotConfig) (ext : Externals) : Prop where
  age : ∀ n : Int, cleanStr (ext.formatAge n)
  self : cleanOpt ext.webSelfE164
  tg : ∀ ida ∈ ext.telegramAccounts,
    cleanStr ida.1 ∧ cleanOpt ida.2.token ∧ cleanOpt ida.2.tokenSource
  dc : ∀ a ∈ ext.discordAccounts, cleanOpt a.token ∧ cleanOpt a.tokenSource
  sl : ∀ a ∈ ext.slackAccounts, cleanOpt a.botToken ∧ cleanOpt a.appToken
    ∧ cleanOpt a.botTokenSource ∧ cleanOpt a.appTokenSource
  si : ∀ a ∈ ext.signalAccounts, cleanOpt a.baseUrl
  im : ∀ a ∈ ext.imessageAccounts, ∀ st, a.config = some st →
    cleanOpt st.cliPath ∧ cleanOpt st.dbPath
  msPwCfg : cleanOpt (cfg.msteams.bind (·.appPassword))
  msPwEnv : cleanOpt (ext.env "MSTEAMS_APP_PASSWORD")

theorem mem_of_tgTokenAccounts {ext : Externals} {a : TelegramAccount}
    (h : a ∈ tgTokenAccounts ext) : ∃ ida ∈ ext.telegramAccounts, ida.2 = a := by
  have h1 : a ∈ tgAccounts ext :=
    List.mem_of_mem_filter (List.mem_of_mem_filter h)
  rcases List.mem_map.1 h1 with ⟨ida, hida, he⟩
  exact ⟨ida, hida, he⟩

theorem mem_of_slackReady {ext : Externals} {a : SlackAccount}
    (h : a ∈ slackReady ext) : a ∈ ext.slackAccounts :=
  List.mem_of_mem_filter (List.mem_of_mem_filter h)

theorem mem_of_dcTokenAccounts {ext : Externals} {a : DiscordAccount}
    (h : a ∈ dcTokenAccounts ext) : a ∈ ext.discordAccounts :=
  List.mem_of_mem_filter (List.mem_of_mem_filter h)

theorem mem_of_siSample {ext : Externals} {a : SignalAccount}
    (h : siSample ext = some a) : a ∈ ext.signalAccounts := by
  rw [siSample] at h
  split at h
  · rename_i heq
    cases h
    exact List.mem_of_mem_filter (List.mem_of_mem_filter
      (List.mem_of_mem_head? heq))
  · exact List.mem_of_mem_filter (List.mem_of_mem_head? h)

theorem mem_of_imSample {ext : Externals} {a : IMessageAccount}
    (h : imSample ext = some a) : a ∈ ext.imessageAccounts := by
  rw [imSample] at h
  exact List.mem_of_mem_filter (List.mem_of_mem_head? h)

theorem cleanStr_tgLabel {cfg : ClawdbotConfig} {ext : Externals}
    (h : CleanInputs cfg ext) : cleanStr (tgSources ext).label := by
  rw [tgSources]
  apply cleanStr_label
  intro s hs
  rcases List.mem_map.1 hs with ⟨a, ha, rfl⟩
  obtain ⟨ida, hida, he⟩ := mem_of_tgTokenAccounts ha
  apply cleanStr_sourceKey
  apply cleanStr_optTrim
  rw [← he]
  exact ((h.tg ida hida).2).2

theorem cleanStr_tgSampleToken {cfg : ClawdbotConfig} {ext : Externals}
    (h : CleanInputs cfg ext) : cleanStr (tgSampleToken ext) := by
  rw [tgSampleToken]
  cases hh : (tgTokenAccounts ext).head? with
  | none =>
    show cleanStr (optTrim none)
    decide
  | some a =>
    obtain ⟨ida, hida, he⟩ := mem_of_tgTokenAccounts (List.mem_of_mem_head? hh)
    show cleanStr (optTrim a.token)
    apply cleanStr_optTrim
    rw [← he]
    exact ((h.tg ida hida).2).1

theorem cleanStr_tgHint {cfg : ClawdbotConfig} {ext : Externals}
    (h : CleanInputs cfg ext) (ss : Bool) : cleanStr (tgTokenHint ext ss) := by
  rw [tgTokenHint]
  split
  · exact cleanStr_hint (cleanStr_tgSampleToken h) ss
  · decide

theorem cleanStr_dcLabel {cfg : ClawdbotConfig} {ext : Externals}
    (h : CleanInputs cfg ext) : cleanStr (dcSources ext).label := by
  rw [dcSources]
  apply cleanStr_label
  intro s hs
  rcases List.mem_map.1 hs with ⟨a, ha, rfl⟩
  exact cleanStr_sourceKey (cleanStr_optTrim
    ((h.dc a (mem_of_dcTokenAccounts ha)).2))

theorem cleanStr_dcSampleToken {cfg : ClawdbotConfig} {ext : Externals}
    (h : CleanInputs cfg ext) : cleanStr (dcSampleToken ext) := by
  rw [dcSampleToken]
  cases hh : (dcTokenAccounts ext).head? with
  | none =>
    show cleanStr (optTrim none)
    decide
  | some a =>
    show cleanStr (optTrim a.token)
    exact cleanStr_optTrim
      ((h.dc a (mem_of_dcTokenAccounts (List.mem_of_mem_head? hh))).1)

theorem cleanStr_dcHint {cfg : ClawdbotConfig} {ext : Externals}
    (h : CleanInputs cfg ext) (ss : Bool) : cleanStr (dcTokenHint ext ss) := by
  rw [dcTokenHint]
  split
  · exact cleanStr_hint (cleanStr_dcSampleToken h) ss
  · decide

theorem cleanStr_slackLabelKey {cfg : ClawdbotConfig} {ext : Externals}
    (h : CleanInputs cfg ext) {a : SlackAccount} (ha : a ∈ ext.slackAccounts)
    (src : Option String) (hsrc : cleanOpt src) :
    cleanStr (sourceKey (some (src.getD "none"))) := by
  apply cleanStr_sourceKey
  show cleanStr (jsTrim (src.getD "none"))
  apply cleanStr_jsTrim
  cases src with
  | none => decide
  | some s => exact hsrc s rfl

theorem cleanStr_slackBotLabel {cfg : ClawdbotConfig} {ext : Externals}
    (h : CleanInputs cfg ext) : cleanStr (slackBotSources ext).label := by
  rw [slackBotSources]
  apply cleanStr_label
  intro s hs
  rcases List.mem_map.1 hs with ⟨a, ha, rfl⟩
  exact cleanStr_slackLabelKey h (mem_of_slackReady ha) a.botTokenSource
    ((h.sl a (mem_of_slackReady ha)).2.2.1)

theorem cleanStr_slackAppLabel {cfg : ClawdbotConfig} {ext : Externals}
    (h : CleanInputs cfg ext) : cleanStr (slackAppSources ext).label := by
  rw [slackAppSources]
  apply cleanStr_label
  intro s hs
  rcases List.mem_map.1 hs with ⟨a, ha, rfl⟩
  exact cleanStr_slackLabelKey h (mem_of_slackReady ha) a.appTokenSource
    ((h.sl a (mem_of_slackReady ha)).2.2.2)

theorem cleanStr_slackBotHint {cfg : ClawdbotConfig} {ext : Externals}
    (h : CleanInputs cfg ext) (ss : Bool) : cleanStr (slackBotHint ext ss) := by
  cases hs : slackSample ext with
  | none =>
    rw [slackBotHint, hs]
    show cleanStr ""
    decide
  | some a =>
    have ha : a ∈ ext.slackAccounts := by
      rw [slackSample] at hs
      exact mem_of_slackReady (List.mem_of_mem_head? hs)
    rw [slackBotHint, hs]
    show cleanStr (if (optTrim a.botToken != "" && a.botTokenSource != some "none") = true
      then formatTokenHint (a.botToken.getD "") ss else "")
    split
    · exact cleanStr_hint (cleanStr_getD ((h.sl a ha).1)) ss
    · decide

theorem cleanStr_slackAppHint {cfg : ClawdbotConfig} {ext : Externals}
    (h : CleanInputs cfg ext) (ss : Bool) : cleanStr (slackAppHint ext ss) := by
  cases hs : slackSample ext with
  | none =>
    rw [slackAppHint, hs]
    show cleanStr ""
    decide
  | some a =>
    have ha : a ∈ ext.slackAccounts := by
      rw [slackSample] at hs
      exact mem_of_slackReady (List.mem_of_mem_head? hs)
    rw [slackAppHint, hs]
    show cleanStr (if (optTrim a.appToken != "" && a.appTokenSource != some "none") = true
      then formatTokenHint (a.appToken.getD "") ss else "")
    split
    · exact cleanStr_hint (cleanStr_getD ((h.sl a ha).2.1)) ss
    · decide

theorem cleanStr_siBaseUrl {cfg : ClawdbotConfig} {ext : Externals}
    (h : CleanInputs cfg ext) : cleanStr (siBaseUrl ext) := by
  rw [siBaseUrl]
  cases hs : siSample ext with
  | none =>
    show cleanStr (optTrim none)
    decide
  | some a =>
    show cleanStr (optTrim a.baseUrl)
    exact cleanStr_optTrim (h.si a (mem_of_siSample hs))

theorem cleanStr_imCliPath {cfg : ClawdbotConfig} {ext : Externals}
    (h : CleanInputs cfg ext) : cleanStr (imCliPath ext) := by
  rw [imCliPath]
  cases hs : imSample ext with
  | none =>
    show cleanStr (optTrim none)
    decide
  | some a =>
    show cleanStr (optTrim (a.config.bind fun st => st.cliPath))
    cases hc : a.config with
    | none =>
      show cleanStr (optTrim none)
      decide
    | some st =>
      show cleanStr (optTrim st.cliPath)
      exact cleanStr_optTrim ((h.im a (mem_of_imSample hs) st hc).1)

theorem cleanStr_imDbPath {cfg : ClawdbotConfig} {ext : Externals}
    (h : CleanInputs cfg ext) : cleanStr (imDbPath ext) := by
  rw [imDbPath]
  cases hs : imSample ext with
  | none =>
    show cleanStr (optTrim none)
    decide
  | some a =>
    show cleanStr (optTrim (a.config.bind fun st => st.dbPath))
    cases hc : a.config with
    | none =>
      show cleanStr (optTrim none)
      decide
    | some st =>
      show cleanStr (optTrim st.dbPath)
      exact cleanStr_optTrim ((h.im a (mem_of_imSample hs) st hc).2)

theorem cleanStr_msAppPassword {cfg : ClawdbotConfig} {ext : Externals}
    (h : CleanInputs cfg ext) : cleanStr (msAppPassword cfg ext) := by
  rw [msAppPassword]
  split
  · exact cleanStr_optTrim h.msPwCfg
  · exact cleanStr_optTrim h.msPwEnv

theorem cleanStr_msPasswordHint {cfg : ClawdbotConfig} {ext : Externals}
    (h : CleanInputs cfg ext) (ss : Bool) :
    cleanStr (msPasswordHint cfg ext ss) := by
  rw [msPasswordHint]
  split
  · exact cleanStr_hint (cleanStr_msAppPassword h) ss
  · decide

theorem cleanStr_tgMissingFiles {cfg : ClawdbotConfig} {ext : Externals}
    (h : CleanInputs cfg ext) : ∀ m ∈ tgMissingFiles cfg ext, cleanStr m := by
  intro m hm
  rw [tgMissingFiles] at hm
  rcases List.mem_append.1 hm with hm | hm
  · split at hm
    · simp only [List.mem_singleton] at hm
      rw [hm]
      decide
    · simp at hm
  · rcases List.mem_filterMap.1 hm with ⟨ida, hida, he⟩
    split at he
    · cases he
      have hid : cleanStr ida.1 := (h.tg ida hida).1
      have h1 : cleanStr ("telegram.accounts." ++ ida.1) :=
        cleanStr_append_left (by decide) hid (by decide)
      exact cleanStr_append_right h1 (by decide) (by decide)
    · cases he

theorem cleanStr_msMissing (cfg : ClawdbotConfig) (ext : Externals) :
    ∀ m ∈ msMissing cfg ext, cleanStr m := by
  intro m hm
  rw [msMissing] at hm
  rcases List.mem_append.1 hm with hm | hm
  · rcases List.mem_append.1 hm with hm | hm
    · split at hm
      · simp only [List.mem_singleton] at hm
        rw [hm]
        decide
      · exact absurd hm (List.not_mem_nil m)
    · split at hm
      · simp only [List.mem_singleton] at hm
        rw [hm]
        decide
      · exact absurd hm (List.not_mem_nil m)
  · split at hm
    · simp only [List.mem_singleton] at hm
      rw [hm]
      decide
    · exact absurd hm (List.not_mem_nil m)

theorem strData_ne_nil_left {s : String} (t : String) (h : s.data ≠ []) :
    (s ++ t).data ≠ [] := by
  intro he
  simp only [strData_append, List.append_eq_nil] at he
  exact h he.1

theorem waSelfPart_clean {cfg : ClawdbotConfig} {ext : Externals}
    (h : CleanInputs cfg ext) : cleanStr (waSelfPart cfg ext) := by
  rw [waSelfPart]
  cases hws : waSelf cfg ext with
  | none => decide
  | some s =>
    show cleanStr (if s ≠ "" then " " ++ s else "")
    split
    · refine cleanStr_append_left (by decide) ?_ (by decide)
      rw [waSelf] at hws
      split at hws
      · exact h.self s hws
      · simp at hws
    · decide

theorem waSelfPart_head (cfg : ClawdbotConfig) (ext : Externals) :
    (waSelfPart cfg ext).data.head? ≠ some '0' := by
  rw [waSelfPart]
  cases waSelf cfg ext with
  | none => decide
  | some s =>
    show (if s ≠ "" then " " ++ s else "").data.head? ≠ some '0'
    split
    · rw [strHead_lit _ (by decide)]
      decide
    · decide

theorem waAgePart_clean {cfg : ClawdbotConfig} {ext : Externals}
    (h : CleanInputs cfg ext) : cleanStr (waAgePart cfg ext) := by
  rw [waAgePart]
  cases waAuthAgeMs cfg ext with
  | none =>
    show cleanStr ""
    decide
  | some n =>
    show cleanStr (if n ≠ 0 then " · auth " ++ ext.formatAge n else "")
    split
    · exact cleanStr_append_left (by decide) (h.age n) (by decide)
    · decide

theorem waAgePart_head (cfg : ClawdbotConfig) (ext : Externals) :
    (waAgePart cfg ext).data.head? ≠ some '0' := by
  rw [waAgePart]
  cases waAuthAgeMs cfg ext with
  | none =>
    show ("" : String).data.head? ≠ some '0'
    decide
  | some n =>
    show (if n ≠ 0 then " · auth " ++ ext.formatAge n else "").data.head? ≠ some '0'
    split
    · rw [strHead_lit _ (by decide)]
      decide
    · decide

theorem tgHintPart_clean {cfg : ClawdbotConfig} {ext : Externals}
    (h : CleanInputs cfg ext) (ss : Bool) : cleanStr (tgHintPart ext ss) := by
  rw [tgHintPart]
  split
  · exact cleanStr_append_right
      (cleanStr_append_left (by decide) (cleanStr_tgHint h ss) (by decide))
      (by decide) (by decide)
  · decide

theorem tgHintPart_head (ext : Externals) (ss : Bool) :
    (tgHintPart ext ss).data.head? ≠ some '0' := by
  rw [tgHintPart]
  split
  · rw [strHead_lit _ (strData_ne_nil_left _ (by decide)),
      strHead_lit _ (by decide)]
    decide
  · decide

theorem dcHintPart_clean {cfg : ClawdbotConfig} {ext : Externals}
    (h : CleanInputs cfg ext) (ss : Bool) : cleanStr (dcHintPart ext ss) := by
  rw [dcHintPart]
  split
  · exact cleanStr_append_right
      (cleanStr_append_left (by decide) (cleanStr_dcHint h ss) (by decide))
      (by decide) (by decide)
  · decide

theorem dcHintPart_head (ext : Externals) (ss : Bool) :
    (dcHintPart ext ss).data.head? ≠ some '0' := by
  rw [dcHintPart]
  split
  · rw [strHead_lit _ (strData_ne_nil_left _ (by decide)),
      strHead_lit _ (by decide)]
    decide
  · decide

theorem slackBotHintPart_clean {cfg : ClawdbotConfig} {ext : Externals}
    (h : CleanInputs cfg ext) (ss : Bool) : cleanStr (slackBotHintPart ext ss) := by
  rw [slackBotHintPart]
  split
  · exact cleanStr_append_left (by decide) (cleanStr_slackBotHint h ss) (by decide)
  · decide

theorem slackBotHintPart_head (ext : Externals) (ss : Bool) :
    (slackBotHintPart ext ss).data.head? ≠ some '0' := by
  rw [slackBotHintPart]
  split
  · rw [strHead_lit _ (by decide)]
    decide
  · decide

theorem slackAppHintPart_clean {cfg : ClawdbotConfig} {ext : Externals}
    (h : CleanInputs cfg ext) (ss : Bool) : cleanStr (slackAppHintPart ext ss) := by
  rw [slackAppHintPart]
  split
  · exact cleanStr_append_left (by decide) (cleanStr_slackAppHint h ss) (by decide)
  · decide

theorem slackAppHintPart_head (ext : Externals) (ss : Bool) :
    (slackAppHintPart ext ss).data.head? ≠ some '0' := by
  rw [slackAppHintPart]
  split
  · rw [strHead_lit _ (by decide)]
    decide
  · decide

theorem siBaseUrlPart_clean {cfg : ClawdbotConfig} {ext : Externals}
    (h : CleanInputs cfg ext) : cleanStr (siBaseUrlPart ext) := by
  rw [siBaseUrlPart]
  split
  · exact cleanStr_append_left (by decide) (cleanStr_siBaseUrl h) (by decide)
  · decide

theorem siBaseUrlPart_head (ext : Externals) :
    (siBaseUrlPart ext).data.head? ≠ some '0' := by
  rw [siBaseUrlPart]
  split
  · rw [strHead_lit _ (by decide)]
    decide
  · decide

theorem imCliPathPart_clean {cfg : ClawdbotConfig} {ext : Externals}
    (h : CleanInputs cfg ext) : cleanStr (imCliPathPart ext) := by
  rw [imCliPathPart]
  split
  · exact cleanStr_append_left (by decide) (cleanStr_imCliPath h) (by decide)
  · decide

theorem imCliPathPart_head (ext : Externals) :
    (imCliPathPart ext).data.head? ≠ some '0' := by
  rw [imCliPathPart]
  split
  · rw [strHead_lit _ (by decide)]
    decide
  · decide

theorem imDbPathPart_clean {cfg : ClawdbotConfig} {ext : Externals}
    (h : CleanInputs cfg ext) : cleanStr (imDbPathPart ext) := by
  rw [imDbPathPart]
  split
  · exact cleanStr_append_left (by decide) (cleanStr_imDbPath h) (by decide)
  · decide

theorem imDbPathPart_head (ext : Externals) :
    (imDbPathPart ext).data.head? ≠ some '0' := by
  rw [imDbPathPart]
  split
  · rw [strHead_lit _ (by decide)]
    decide
  · decide

theorem msPasswordPart_clean {cfg : ClawdbotConfig} {ext : Externals}
    (h : CleanInputs cfg ext) (ss : Bool) : cleanStr (msPasswordPart cfg ext ss) := by
  rw [msPasswordPart]
  split
  · exact cleanStr_append_right
      (cleanStr_append_left (by decide) (cleanStr_msPasswordHint h ss) (by decide))
      (by decide) (by decide)
  · decide

theorem msPasswordPart_head (cfg : ClawdbotConfig) (ext : Externals) (ss : Bool) :
    (msPasswordPart cfg ext ss).data.head? ≠ some '0' := by
  rw [msPasswordPart]
  split
  · rw [strHead_lit _ (strData_ne_nil_left _ (by decide)),
      strHead_lit _ (by decide)]
    decide
  · decide

theorem cleanStr_whatsAppDetail {cfg : ClawdbotConfig} {ext : Externals}
    (h : CleanInputs cfg ext) : cleanStr (whatsAppRow cfg ext).detail := by
  simp only [whatsAppRow]
  split
  · split
    · have h1 : cleanStr ("linked" ++ waSelfPart cfg ext) :=
        cleanStr_append_left (by decide) (waSelfPart_clean h) (by decide)
      have h2 : cleanStr ("linked" ++ waSelfPart cfg ext ++ waAgePart cfg ext) :=
        cleanStr_append_right h1 (waAgePart_clean h) (waAgePart_head cfg ext)
      have h3 : cleanStr ("linked" ++ waSelfPart cfg ext ++ waAgePart cfg ext
          ++ " · accounts ") :=
        cleanStr_append_right h2 (by decide) (by decide)
      refine cleanStr_append_left h3 (cleanStr_natDec _) ?_
      rw [strLast_lit _ (by decide)]
      decide
    · decide
  · decide

theorem cleanStr_telegramDetail {cfg : ClawdbotConfig} {ext : Externals}
    (h : CleanInputs cfg ext) (ss : Bool) :
    cleanStr (telegramRow cfg ext ss).detail := by
  simp only [telegramRow]
  split
  · split
    · have hel : cleanStr ((tgMissingFiles cfg ext).headD "") := by
        cases he : tgMissingFiles cfg ext with
        | nil =>
          show cleanStr ""
          decide
        | cons m rest =>
          simp only [List.headD_cons]
          exact cleanStr_tgMissingFiles h m (he ▸ List.mem_cons_self m rest)
      exact cleanStr_append_right
        (cleanStr_append_left (by decide) hel (by decide)) (by decide) (by decide)
    · split
      · have h1 : cleanStr ("bot token " ++ (tgSources ext).label) :=
          cleanStr_append_left (by decide) (cleanStr_tgLabel h) (by decide)
        have h2 : cleanStr ("bot token " ++ (tgSources ext).label
            ++ tgHintPart ext ss) :=
          cleanStr_append_right h1 (tgHintPart_clean h ss) (tgHintPart_head ext ss)
        have h3 : cleanStr ("bot token " ++ (tgSources ext).label
            ++ tgHintPart ext ss ++ " · accounts ") :=
          cleanStr_append_right h2 (by decide) (by decide)
        refine cleanStr_fraction h3 ?_ _ _ (jsOr1_pos _)
        rw [strLast_lit _ (by decide)]
        decide
      · decide
  · decide

theorem cleanStr_discordDetail {cfg : ClawdbotConfig} {ext : Externals}
    (h : CleanInputs cfg ext) (ss : Bool) :
    cleanStr (discordRow cfg ext ss).detail := by
  simp only [discordRow]
  split
  · split
    · have h1 : cleanStr ("bot token " ++ (dcSources ext).label) :=
        cleanStr_append_left (by decide) (cleanStr_dcLabel h) (by decide)
      have h2 : cleanStr ("bot token " ++ (dcSources ext).label
          ++ dcHintPart ext ss) :=
        cleanStr_append_right h1 (dcHintPart_clean h ss) (dcHintPart_head ext ss)
      have h3 : cleanStr ("bot token " ++ (dcSources ext).label
          ++ dcHintPart ext ss ++ " · accounts ") :=
        cleanStr_append_right h2 (by decide) (by decide)
      refine cleanStr_fraction h3 ?_ _ _ (jsOr1_pos _)
      rw [strLast_lit _ (by decide)]
      decide
    · decide
  · decide

theorem cleanStr_slackDetail {cfg : ClawdbotConfig} {ext : Externals}
    (h : CleanInputs cfg ext) (ss : Bool) :
    cleanStr (slackRow cfg ext ss).detail := by
  simp only [slackRow]
  split
  · split
    · exact cleanStr_append_left (by decide) (cleanStr_natDec _) (by decide)
    · split
      · have h1 : cleanStr ("tokens ok (bot " ++ (slackBotSources ext).label) :=
          cleanStr_append_left (by decide) (cleanStr_slackBotLabel h) (by decide)
        have h2 : cleanStr ("tokens ok (bot " ++ (slackBotSources ext).label
            ++ slackBotHintPart ext ss) :=
          cleanStr_append_right h1 (slackBotHintPart_clean h ss)
            (slackBotHintPart_head ext ss)
        have h3 : cleanStr ("tokens ok (bot " ++ (slackBotSources ext).label
            ++ slackBotHintPart ext ss ++ ", app ") :=
          cleanStr_append_right h2 (by decide) (by decide)
        have h4 : cleanStr ("tokens ok (bot " ++ (slackBotSources ext).label
            ++ slackBotHintPart ext ss ++ ", app " ++ (slackAppSources ext).label) := by
          refine cleanStr_append_left h3 (cleanStr_slackAppLabel h) ?_
          rw [strLast_lit _ (by decide)]
          decide
        have h5 : cleanStr ("tokens ok (bot " ++ (slackBotSources ext).label
            ++ slackBotHintPart ext ss ++ ", app " ++ (slackAppSources ext).label
            ++ slackAppHintPart ext ss) :=
          cleanStr_append_right h4 (slackAppHintPart_clean h ss)
            (slackAppHintPart_head ext ss)
        have h6 : cleanStr ("tokens ok (bot " ++ (slackBotSources ext).label
            ++ slackBotHintPart ext ss ++ ", app " ++ (slackAppSources ext).label
            ++ slackAppHintPart ext ss ++ ") · accounts ") :=
          cleanStr_append_right h5 (by decide) (by decide)
        refine cleanStr_fraction h6 ?_ _ _ (jsOr1_pos _)
        rw [strLast_lit _ (by decide)]
        decide
      · split
        · decide
        · decide
  · decide

theorem cleanStr_signalDetail {cfg : ClawdbotConfig} {ext : Externals}
    (h : CleanInputs cfg ext) : cleanStr (signalRow cfg ext).detail := by
  simp only [signalRow]
  split
  · split
    · have h1 : cleanStr ("configured" ++ siBaseUrlPart ext) :=
        cleanStr_append_left (by decide) (siBaseUrlPart_clean h) (by decide)
      have h2 : cleanStr ("configured" ++ siBaseUrlPart ext ++ " · accounts ") :=
        cleanStr_append_right h1 (by decide) (by decide)
      refine cleanStr_fraction h2 ?_ _ _ (jsOr1_pos _)
      rw [strLast_lit _ (by decide)]
      decide
    · decide
  · decide

theorem cleanStr_imessageDetail {cfg : ClawdbotConfig} {ext : Externals}
    (h : CleanInputs cfg ext) : cleanStr (imessageRow cfg ext).detail := by
  simp only [imessageRow]
  split
  · split
    · have h1 : cleanStr ("configured" ++ imCliPathPart ext) :=
        cleanStr_append_left (by decide) (imCliPathPart_clean h) (by decide)
      have h2 : cleanStr ("configured" ++ imCliPathPart ext ++ imDbPathPart ext) :=
        cleanStr_append_right h1 (imDbPathPart_clean h) (imDbPathPart_head ext)
      have h3 : cleanStr ("configured" ++ imCliPathPart ext ++ imDbPathPart ext
          ++ " · accounts ") :=
        cleanStr_append_right h2 (by decide) (by decide)
      refine cleanStr_fraction h3 ?_ _ _ (jsOr1_pos _)
      rw [strLast_lit _ (by decide)]
      decide
    · decide
  · decide

theorem cleanStr_msteamsDetail {cfg : ClawdbotConfig} {ext : Externals}
    (h : CleanInputs cfg ext) (ss : Bool) :
    cleanStr (msteamsRow cfg ext ss).detail := by
  simp only [msteamsRow]
  split
  · split
    · exact cleanStr_append_right (by decide) (msPasswordPart_clean h ss)
        (msPasswordPart_head cfg ext ss)
    · split
      · have hjoin : cleanStr (joinSep ", " (msMissing cfg ext)) :=
          cleanStr_joinSep ", " (by decide) (by decide) (by decide) (by decide)
            _ (cleanStr_msMissing cfg ext)
        exact cleanStr_append_right
          (cleanStr_append_left (by decide) hjoin (by decide))
          (by decide) (by decide)
      · decide
  · decide

def c9acct : SignalAccount :=
  { enabled := true, configured := true, baseUrl := some "http://h/0" }

def c9ext : Externals :=
  { emptyExt with signalAccounts := [c9acct] }

/-- C9 (counterexample): a Signal base URL containing `/0` lands verbatim
in the detail of an `ok` row, so an `ok` row's detail can contain `/0`. -/
theorem c9_counterexample :
    ∃ row ∈ (buildProvidersTable emptyCfg c9ext none).rows,
      row.state = ProviderState.ok ∧ containsSubstr "/0" row.detail := by
  decide

/-- C9 (amended): every account-count fraction rendered in an `ok` detail
uses denominator `max 1 enabledAccountCount` (so the fraction itself never
renders a `/0`), and, provided every externally supplied string is free of
the substring `/0`, no detail of an `ok` or `warn` row contains `/0`; an
external string such as a base URL can still inject `/0`, as the
counterexample shows. -/
theorem c9_amended (cfg : ClawdbotConfig) (ext : Externals) (opts : Option Bool)
    (h : CleanInputs cfg ext) :
    (∀ row ∈ (buildProvidersTable cfg ext opts).rows,
      (row.state = ProviderState.ok ∨ row.state = ProviderState.warn) →
        ¬ containsSubstr "/0" row.detail) ∧
    ((telegramRow cfg ext (opts.getD false)).state = ProviderState.ok →
      ∃ p, (telegramRow cfg ext (opts.getD false)).detail
        = p ++ ("/" ++ natDec (max 1 (tgEnabledAccounts ext).length))) ∧
    ((discordRow cfg ext (opts.getD false)).state = ProviderState.ok →
      ∃ p, (discordRow cfg ext (opts.getD false)).detail
        = p ++ ("/" ++ natDec (max 1 (dcEnabledAccounts ext).length))) ∧
    ((slackRow cfg ext (opts.getD false)).state = ProviderState.ok →
      ∃ p, (slackRow cfg ext (opts.getD false)).detail
        = p ++ ("/" ++ natDec (max 1 (slEnabledAccounts ext).length))) ∧
    ((signalRow cfg ext).state = ProviderState.ok →
      ∃ p, (signalRow cfg ext).detail
        = p ++ ("/" ++ natDec (max 1 (siEnabledAccounts ext).length))) ∧
    ((imessageRow cfg ext).state = ProviderState.ok →
      ∃ p, (imessageRow cfg ext).detail
        = p ++ ("/" ++ natDec (max 1 (imEnabledAccounts ext).length))) := by
  refine ⟨?_, ?_, ?_, ?_, ?_, ?_⟩
  · intro row hrow _
    simp only [buildProvidersTable, List.mem_cons, List.not_mem_nil, or_false] at hrow
    rcases hrow with he | he | he | he | he | he | he <;> subst he
    · exact cleanStr_whatsAppDetail h
    · exact cleanStr_telegramDetail h _
    · exact cleanStr_discordDetail h _
    · exact cleanStr_slackDetail h _
    · exact cleanStr_signalDetail h
    · exact cleanStr_imessageDetail h
    · exact cleanStr_msteamsDetail h _
  · intro hok
    cases ht : tgEnabled cfg
    · exfalso
      simp [telegramRow, ht] at hok
    · cases hm : tgMisconfigured cfg ext
      · by_cases htk : (tgTokenAccounts ext).length > 0
        · refine ⟨"bot token " ++ (tgSources ext).label
            ++ tgHintPart ext (opts.getD false) ++ " · accounts "
            ++ natDec (tgTokenAccounts ext).length, ?_⟩
          simp only [telegramRow, ht, hm, htk, if_true, if_pos, Bool.not_true,
            Bool.false_eq_true, if_false, jsOr1_eq_max]
          rw [← jsOr1_eq_max, jsOr1_eq_max, String.append_assoc]
        · exfalso
          simp [telegramRow, ht, hm, htk] at hok
      · exfalso
        simp [telegramRow, ht, hm] at hok
  · intro hok
    cases hd : dcEnabled cfg
    · exfalso
      simp [discordRow, hd] at hok
    · by_cases hdk : (dcTokenAccounts ext).length > 0
      · refine ⟨"bot token " ++ (dcSources ext).label
          ++ dcHintPart ext (opts.getD false) ++ " · accounts "
          ++ natDec (dcTokenAccounts ext).length, ?_⟩
        simp only [discordRow, hd, hdk, jsOr1_eq_max, if_true, if_false]
        rw [← jsOr1_eq_max, jsOr1_eq_max, String.append_assoc]
      · exfalso
        simp [discordRow, hd, hdk] at hok
  · intro hok
    cases hs : slEnabled cfg
    · exfalso
      simp [slackRow, hs] at hok
    · by_cases hp : (slackPartialTokens ext).length > 0
      · exfalso
        simp [slackRow, hs, hp] at hok
      · by_cases hr : (slackReady ext).length > 0
        · refine ⟨"tokens ok (bot " ++ (slackBotSources ext).label
            ++ slackBotHintPart ext (opts.getD false)
            ++ ", app " ++ (slackAppSources ext).label
            ++ slackAppHintPart ext (opts.getD false)
            ++ ") · accounts " ++ natDec (slackReady ext).length, ?_⟩
          simp only [slackRow, hs, hp, hr, jsOr1_eq_max, if_true, if_false,
            gt_iff_lt, Nat.lt_irrefl, Nat.not_lt, if_neg hp]
          rw [← jsOr1_eq_max, jsOr1_eq_max, String.append_assoc]
        · exfalso
          simp [slackRow, hs, hp, hr] at hok
  · intro hok
    cases hsi : siEnabled cfg
    · exfalso
      simp [signalRow, hsi] at hok
    · by_cases hc : (siConfiguredAccounts ext).length > 0
      · refine ⟨"configured" ++ siBaseUrlPart ext ++ " · accounts "
          ++ natDec (siConfiguredAccounts ext).length, ?_⟩
        simp only [signalRow, hsi, hc, jsOr1_eq_max, if_true, if_false]
        rw [← jsOr1_eq_max, jsOr1_eq_max, String.append_assoc]
      · exfalso
        simp [signalRow, hsi, hc] at hok
  · intro hok
    cases him : imEnabled cfg
    · exfalso
      simp [imessageRow, him] at hok
    · by_cases hc : (imConfiguredAccounts ext).length > 0
      · refine ⟨"configured" ++ imCliPathPart ext ++ imDbPathPart ext
          ++ " · accounts " ++ natDec (imConfiguredAccounts ext).length, ?_⟩
        simp only [imessageRow, him, hc, jsOr1_eq_max, if_true, if_false]
        rw [← jsOr1_eq_max, jsOr1_eq_max, String.append_assoc]
      · exfalso
        simp [imessageRow, him, hc] at hok

def c9wacct : SignalAccount :=
  { enabled := true, configured := true, baseUrl := some "http://ok" }

def c9wext : Externals :=
  { emptyExt with signalAccounts := [c9wacct] }

/-- C9 (witness): with clean inputs the `ok` Signal detail is `/0`-free. -/
theorem c9_witness :
    ¬ containsSubstr "/0" (signalRow emptyCfg c9wext).detail := by
  have hclean : CleanInputs emptyCfg c9wext := by
    constructor
    · intro n
      show cleanStr ""
      decide
    · intro s hs
      exact Option.noConfusion (show (none : Option String) = some s from hs)
    · intro ida hida
      exact absurd hida (List.not_mem_nil ida)
    · intro a ha
      exact absurd ha (List.not_mem_nil a)
    · intro a ha
      exact absurd ha (List.not_mem_nil a)
    · intro a ha s hs
      have ha' : a = c9wacct := by
        have hm : a ∈ [c9wacct] := ha
        simpa using hm
      subst ha'
      have hs' : some "http://ok" = some s := hs
      injection hs' with he
      subst he
      decide
    · intro a ha
      exact absurd ha (List.not_mem_nil a)
    · intro s hs
      exact Option.noConfusion (show (none : Option String) = some s from hs)
    · intro s hs
      exact Option.noConfusion (show (none : Option String) = some s from hs)
  exact (c9_amended emptyCfg c9wext none hclean).1 (signalRow emptyCfg c9wext)
    (by decide) (Or.inl (by decide))
